import Mathlib

/-! Stumpfworks Hub registry: shallow embedding

Embedding of `internal/registry/types.go` and `internal/registry/registry.go`.

* Go `map[string]*T` is a key-unique association list (`AList`); the order of its
  entries stands for Go's unspecified iteration order.
* Everything outside the process is an explicit input `World`: the callback
  invocations `filepath.Walk` makes on each root, whether `os.Stat` of the apps
  root reports "not exist", and the clock readings.
* `time.Time` is an integer count of nanoseconds since the zero `Time`;
  `time.Duration` is an integer in the int64 range and `Time.Sub` saturates.
* The mutex is not modelled: every operation is one atomic state transition.
-/

namespace Hub

/-! ## Time -/

/-- Instants (`time.Time`), in nanoseconds since the zero `Time`. -/
abbrev Time := Int

/-- Elapsed time (`time.Duration`), in nanoseconds; an int64 in Go. -/
abbrev Duration := Int

/-- Largest `time.Duration` (`1<<63 - 1`). -/
def maxDuration : Duration := 9223372036854775807

/-- Smallest `time.Duration` (`-1 << 63`). -/
def minDuration : Duration := -9223372036854775808

/-- The zero value of `time.Time`, the initial `lastLoad`. -/
def zeroTime : Time := 0

/-- Go `Time.Sub`: `t - u`, replaced by the largest (smallest) duration when the
difference exceeds what a `Duration` can store. -/
def Sub (t u : Time) : Duration :=
  if t - u > maxDuration then maxDuration
  else if t - u < minDuration then minDuration
  else t - u

/-- Go `time.Since(t)`, that is `time.Now().Sub(t)`, with the clock reading `now`. -/
def Since (now t : Time) : Duration := Sub now t

/-! ## Strings -/

/-- Go `strings.HasSuffix`. -/
def HasSuffix (s suffix : String) : Bool := suffix.data.isSuffixOf s.data

/-- Go `strings.Contains`: `substr` occurs in `s` as a contiguous block. -/
def Contains (s substr : String) : Bool :=
  s.data.tails.any (fun t => substr.data.isPrefixOf t)

/-! ## types.go -/

/-- System requirements of a template (`TemplateRequirements`). -/
structure TemplateRequirements where
  MinMemoryMB : Int
  MinDiskGB : Int
  Ports : List Int
  Notes : List String
  deriving DecidableEq, Inhabited

/-- Docker Compose template (`Template`). -/
structure Template where
  ID : String
  Name : String
  Description : String
  Icon : String
  Category : String
  Author : String
  Version : String
  Compose : String
  Variables : List (String × String)
  Requirements : TemplateRequirements
  CreatedAt : Time
  UpdatedAt : Time
  Tags : List String
  Screenshots : List String
  deriving DecidableEq, Inhabited

/-- Addon for the NAS (`App`). -/
structure App where
  ID : String
  Name : String
  Description : String
  Icon : String
  Category : String
  Author : String
  Version : String
  Dependencies : List String
  Packages : List String
  Services : List String
  MinNASVersion : String
  CreatedAt : Time
  UpdatedAt : Time
  Tags : List String
  Screenshots : List String
  InstallScript : String
  UninstallScript : String
  deriving DecidableEq, Inhabited

/-- Summary of a template for listings (`TemplateMetadata`). -/
structure TemplateMetadata where
  ID : String
  Name : String
  Description : String
  Icon : String
  Category : String
  Author : String
  Version : String
  UpdatedAt : Time
  deriving DecidableEq, Inhabited

/-- Summary of an app for listings (`AppMetadata`). -/
structure AppMetadata where
  ID : String
  Name : String
  Description : String
  Icon : String
  Category : String
  Author : String
  Version : String
  UpdatedAt : Time
  deriving DecidableEq, Inhabited

/-! ## The world outside the process -/

/-- What reading and decoding one file gives: `os.ReadFile` fails, or
`json.Unmarshal` fails, or `json.Unmarshal` fills a fresh zero-valued record. -/
inductive FileContent (α : Type) where
  | unreadable : FileContent α
  | malformed : FileContent α
  | parsed (v : α) : FileContent α
  deriving DecidableEq

/-- One invocation of the `filepath.Walk` callback: the path, the `err` argument,
`info.IsDir()`, and what reading the file would give. -/
structure WalkEntry (α : Type) where
  path : String
  err : Option String
  isDir : Bool
  content : FileContent α
  deriving DecidableEq

/-- The environment seen by one operation of the registry. -/
structure World where
  /-- callback invocations of `filepath.Walk(r.templatesDir, ...)`, in walk order -/
  templatesWalk : List (WalkEntry Template)
  /-- `os.IsNotExist` of the error of `os.Stat(r.appsDir)` -/
  appsDirMissing : Bool
  /-- callback invocations of `filepath.Walk(r.appsDir, ...)`, in walk order -/
  appsWalk : List (WalkEntry App)
  /-- clock reading used by `time.Since` in `Reload` -/
  now : Time
  /-- clock reading of `time.Now()` at the end of `loadTemplates` -/
  loadTime : Time

/-- Go `filepath.Walk` driving a callback `fn` over the entries of a tree: the
callback updates the state it closes over; the first non-nil error it returns
stops the walk and is the result of `Walk`. -/
def Walk {σ α : Type} (fn : σ → WalkEntry α → σ × Option String) :
    σ → List (WalkEntry α) → σ × Option String
  | s, [] => (s, none)
  | s, e :: es =>
    match fn s e with
    | (s', none) => Walk fn s' es
    | (s', some err) => (s', some err)

/-! ## registry.go -/

/-- Record map `map[string]*Template`. -/
abbrev TemplateMap := AList (fun _ : String => Template)

/-- Record map `map[string]*App`. -/
abbrev AppMap := AList (fun _ : String => App)

/-- The local `categoryMap` of a scan, a `map[string]bool`. -/
abbrev CategoryMap := AList (fun _ : String => Bool)

/-- Registry manages templates and apps with caching (`Registry`, without `mu`). -/
structure Registry where
  templatesDir : String
  appsDir : String
  cacheTTL : Duration
  templates : TemplateMap
  apps : AppMap
  categories : List String
  appCategories : List String
  lastLoad : Time
  deriving DecidableEq

/-- `NewRegistry`: empty maps, nil category slices, zero `lastLoad`. -/
def NewRegistry (templatesDir appsDir : String) (cacheTTL : Duration) : Registry :=
  { templatesDir := templatesDir
    appsDir := appsDir
    cacheTTL := cacheTTL
    templates := ∅
    apps := ∅
    categories := []
    appCategories := []
    lastLoad := zeroTime }

/-- The walk callback of `loadTemplates` (registry.go 65-100), acting on
`r.templates` and the local `categoryMap`. -/
def templateVisit (st : TemplateMap × CategoryMap) (e : WalkEntry Template) :
    (TemplateMap × CategoryMap) × Option String :=
  match e.err with
  | some err => (st, some err)
  | none =>
    if e.isDir || !HasSuffix e.path ".json" then (st, none)
    else
      match e.content with
      | .unreadable => (st, none)
      | .malformed => (st, none)
      | .parsed tpl =>
        if tpl.ID = "" || tpl.Name = "" then (st, none)
        else ((st.1.insert tpl.ID tpl, st.2.insert tpl.Category true), none)

/-- The walk callback of `loadApps` (registry.go 129-164), acting on `r.apps` and
the local `categoryMap`. -/
def appVisit (st : AppMap × CategoryMap) (e : WalkEntry App) :
    (AppMap × CategoryMap) × Option String :=
  match e.err with
  | some err => (st, some err)
  | none =>
    if e.isDir || !HasSuffix e.path ".json" then (st, none)
    else
      match e.content with
      | .unreadable => (st, none)
      | .malformed => (st, none)
      | .parsed app =>
        if app.ID = "" || app.Name = "" then (st, none)
        else ((st.1.insert app.ID app, st.2.insert app.Category true), none)

/-- `loadTemplates`: `r.templates` is reset and filled during the walk; the
category slice and `lastLoad` are assigned only when the walk returns no error. -/
def loadTemplates (r : Registry) (w : World) : Registry × Option String :=
  let res := Walk templateVisit (∅, ∅) w.templatesWalk
  let r1 := { r with templates := res.1.1 }
  match res.2 with
  | some err => (r1, some err)
  | none => ({ r1 with categories := res.1.2.keys, lastLoad := w.loadTime }, none)

/-- `loadApps`: returns at once when the apps root does not exist; otherwise as
`loadTemplates`, without touching `lastLoad`. -/
def loadApps (r : Registry) (w : World) : Registry × Option String :=
  if w.appsDirMissing then (r, none)
  else
    let res := Walk appVisit (∅, ∅) w.appsWalk
    let r1 := { r with apps := res.1.1 }
    match res.2 with
    | some err => (r1, some err)
    | none => ({ r1 with appCategories := res.1.2.keys }, none)

/-- `Initialize`: a template scan error is wrapped and returned; an app scan error
is only printed. -/
def Initialize (r : Registry) (w : World) : Registry × Option String :=
  match loadTemplates r w with
  | (r1, some err) => (r1, some ("failed to load templates: " ++ err))
  | (r1, none) => ((loadApps r1 w).1, none)

/-- The local `needsReload` of `Reload`: `time.Since(r.lastLoad) > r.cacheTTL`. -/
def needsReload (r : Registry) (w : World) : Bool :=
  decide (Since w.now r.lastLoad > r.cacheTTL)

/-- `Reload`: runs `Initialize` when the cache has expired. -/
def Reload (r : Registry) (w : World) : Registry × Option String :=
  if needsReload r w then Initialize r w else (r, none)

/-- `GetTemplate`: the result pair is (record, error). -/
def GetTemplate (r : Registry) (w : World) (id : String) :
    Registry × (Option Template × Option String) :=
  let r1 := (Reload r w).1
  match r1.templates.lookup id with
  | none => (r1, (none, some ("template not found: " ++ id)))
  | some tpl => (r1, (some tpl, none))

/-- The `TemplateMetadata` literal built in `ListTemplates` and `SearchTemplates`. -/
def templateMetadata (tpl : Template) : TemplateMetadata :=
  { ID := tpl.ID
    Name := tpl.Name
    Description := tpl.Description
    Icon := tpl.Icon
    Category := tpl.Category
    Author := tpl.Author
    Version := tpl.Version
    UpdatedAt := tpl.UpdatedAt }

/-- `ListTemplates`. -/
def ListTemplates (r : Registry) (w : World) :
    Registry × (List TemplateMetadata × Option String) :=
  let r1 := (Reload r w).1
  (r1, (r1.templates.entries.map (fun e => templateMetadata e.2), none))

/-- `GetTemplateCategories`. -/
def GetTemplateCategories (r : Registry) (w : World) : Registry × List String :=
  let r1 := (Reload r w).1
  (r1, r1.categories)

/-- The match condition of `SearchTemplates`, on the lowered query. -/
def templateMatches (toLower : String → String) (query : String) (tpl : Template) : Bool :=
  Contains (toLower tpl.Name) query ||
    Contains (toLower tpl.Description) query ||
    Contains (toLower tpl.Category) query

/-- `SearchTemplates`; `toLower` is Go's `strings.ToLower`. -/
def SearchTemplates (toLower : String → String) (r : Registry) (w : World) (query : String) :
    Registry × (List TemplateMetadata × Option String) :=
  let r1 := (Reload r w).1
  let query := toLower query
  (r1, (((r1.templates.entries.filter (fun e => templateMatches toLower query e.2)).map
    (fun e => templateMetadata e.2)), none))

/-- `GetApp`: the result pair is (record, error). -/
def GetApp (r : Registry) (w : World) (id : String) :
    Registry × (Option App × Option String) :=
  let r1 := (Reload r w).1
  match r1.apps.lookup id with
  | none => (r1, (none, some ("app not found: " ++ id)))
  | some app => (r1, (some app, none))

/-- The `AppMetadata` literal built in `ListApps` and `SearchApps`. -/
def appMetadata (app : App) : AppMetadata :=
  { ID := app.ID
    Name := app.Name
    Description := app.Description
    Icon := app.Icon
    Category := app.Category
    Author := app.Author
    Version := app.Version
    UpdatedAt := app.UpdatedAt }

/-- `ListApps`. -/
def ListApps (r : Registry) (w : World) :
    Registry × (List AppMetadata × Option String) :=
  let r1 := (Reload r w).1
  (r1, (r1.apps.entries.map (fun e => appMetadata e.2), none))

/-- `GetAppCategories`. -/
def GetAppCategories (r : Registry) (w : World) : Registry × List String :=
  let r1 := (Reload r w).1
  (r1, r1.appCategories)

/-- The match condition of `SearchApps`, on the lowered query. -/
def appMatches (toLower : String → String) (query : String) (app : App) : Bool :=
  Contains (toLower app.Name) query ||
    Contains (toLower app.Description) query ||
    Contains (toLower app.Category) query

/-- `SearchApps`; `toLower` is Go's `strings.ToLower`. -/
def SearchApps (toLower : String → String) (r : Registry) (w : World) (query : String) :
    Registry × (List AppMetadata × Option String) :=
  let r1 := (Reload r w).1
  let query := toLower query
  (r1, (((r1.apps.entries.filter (fun e => appMatches toLower query e.2)).map
    (fun e => appMetadata e.2)), none))

/-- `strings.ToLower` on ASCII text: `A`-`Z` become `a`-`z`, every other character
is kept. Used to run `SearchTemplates` and `SearchApps` on concrete inputs. -/
def asciiToLower (s : String) : String := ⟨s.data.map Char.toLower⟩

/-! ## Notions used to state the properties -/

/-- The record one callback invocation stores, if any: the entry carries no walk
error, is not a directory, is named `*.json`, can be read and decoded, and the
decoded record has a non-empty ID and a non-empty Name (a "valid file"). -/
def validRecord {α : Type} (ID Name : α → String) (e : WalkEntry α) : Option α :=
  match e.err with
  | some _ => none
  | none =>
    if e.isDir || !HasSuffix e.path ".json" then none
    else
      match e.content with
      | .unreadable => none
      | .malformed => none
      | .parsed v => if ID v = "" || Name v = "" then none else some v

/-- The records of the valid files of a walk, in scan order. -/
def validRecords {α : Type} (ID Name : α → String) (es : List (WalkEntry α)) : List α :=
  es.filterMap (validRecord ID Name)

/-- The last record of a list, in list order, whose ID is `id`. -/
def lastWithID {α : Type} (ID : α → String) (id : String) (l : List α) : Option α :=
  (l.filter (fun v => decide (ID v = id))).getLast?

/-- A file the scan is to skip: the walk reports no error for it, and it cannot be
read, or does not decode, or decodes to a record with an empty ID or an empty Name. -/
def badFile {α : Type} (ID Name : α → String) (e : WalkEntry α) : Prop :=
  e.err = none ∧
    (e.content = .unreadable ∨ e.content = .malformed ∨
      ∃ v, e.content = .parsed v ∧ (ID v = "" ∨ Name v = ""))

/-- Every record held by the registry has a non-empty ID and a non-empty Name. -/
def Registry.clean (r : Registry) : Prop :=
  (∀ e ∈ r.templates.entries, e.2.ID ≠ "" ∧ e.2.Name ≠ "") ∧
    (∀ e ∈ r.apps.entries, e.2.ID ≠ "" ∧ e.2.Name ≠ "")

/-- The step both walk callbacks take on a valid file: store the record under its
ID and mark its category. -/
def storeRecord {α : Type} (ID Category : α → String)
    (st : AList (fun _ : String => α) × CategoryMap) (v : α) :
    AList (fun _ : String => α) × CategoryMap :=
  (st.1.insert (ID v) v, st.2.insert (Category v) true)

/-- Both callbacks are this function of the entry. -/
def visitWith {α : Type} (ID Name Category : α → String)
    (st : AList (fun _ : String => α) × CategoryMap) (e : WalkEntry α) :
    (AList (fun _ : String => α) × CategoryMap) × Option String :=
  match e.err with
  | some err => (st, some err)
  | none =>
    match validRecord ID Name e with
    | some v => (storeRecord ID Category st v, none)
    | none => (st, none)

/-! ## Sample data

A small tree of each kind, used to run the definitions on concrete inputs. -/

/-- A template with the given ID, name, description and category. -/
def sampleTemplate (id name description category : String) : Template :=
  { ID := id, Name := name, Description := description, Icon := "", Category := category,
    Author := "", Version := "1.0.0", Compose := "", Variables := [],
    Requirements := { MinMemoryMB := 0, MinDiskGB := 0, Ports := [], Notes := [] },
    CreatedAt := 0, UpdatedAt := 0, Tags := [], Screenshots := [] }

/-- An app with the given ID, name, description and category. -/
def sampleApp (id name description category : String) : App :=
  { ID := id, Name := name, Description := description, Icon := "", Category := category,
    Author := "", Version := "1.0.0", Dependencies := [], Packages := [], Services := [],
    MinNASVersion := "", CreatedAt := 0, UpdatedAt := 0, Tags := [], Screenshots := [],
    InstallScript := "", UninstallScript := "" }

/-- Callback invocation for a readable, well-formed JSON file. -/
def jsonFile {α : Type} (path : String) (v : α) : WalkEntry α :=
  { path := path, err := none, isDir := false, content := .parsed v }

/-- Callback invocation for a directory. -/
def dirEntry {α : Type} (path : String) : WalkEntry α :=
  { path := path, err := none, isDir := true, content := .unreadable }

/-- The three records of the search example, as templates and as apps. -/
def tplMedia : Template := sampleTemplate "plex" "Media Server" "streams films" "video"
def tplTool : Template := sampleTemplate "tool" "Tagger" "great media tool" "util"
def tplBackup : Template := sampleTemplate "backup" "Backup" "daily backups" "storage"
def appMedia : App := sampleApp "plex" "Media Server" "streams films" "video"
def appTool : App := sampleApp "tool" "Tagger" "great media tool" "util"
def appBackup : App := sampleApp "backup" "Backup" "daily backups" "storage"

/-- Both roots hold the three records; the clock reads some date in our era. -/
def sampleWorld : World :=
  { templatesWalk := [dirEntry "templates", jsonFile "templates/backup.json" tplBackup,
      jsonFile "templates/plex.json" tplMedia, jsonFile "templates/tool.json" tplTool]
    appsDirMissing := false
    appsWalk := [dirEntry "apps", jsonFile "apps/backup.json" appBackup,
      jsonFile "apps/plex.json" appMedia, jsonFile "apps/tool.json" appTool]
    now := 70000000000000000000
    loadTime := 70000000000000000000 }

/-- The registry of `main`, TTL one hour, after `Initialize` on `sampleWorld`. -/
def sampleRegistry : Registry :=
  (Initialize (NewRegistry "./templates" "./apps" 3600000000000) sampleWorld).1

/-- Two valid files with the same ID and different categories, and between them a
file whose record has no name; as templates and as apps. -/
def tplFirst : Template := sampleTemplate "dup" "First" "earlier file" "alpha"
def tplSecond : Template := sampleTemplate "dup" "Second" "later file" "beta"
def tplNoName : Template := sampleTemplate "anon" "" "no name" "gamma"
def appFirst : App := sampleApp "dup" "First" "earlier file" "alpha"
def appSecond : App := sampleApp "dup" "Second" "later file" "beta"
def appNoName : App := sampleApp "anon" "" "no name" "gamma"

/-- Both roots hold the two files with ID `dup` around the file without a name. -/
def dupWorld : World :=
  { templatesWalk := [dirEntry "templates", jsonFile "templates/a.json" tplFirst,
      jsonFile "templates/b.json" tplNoName, jsonFile "templates/c.json" tplSecond]
    appsDirMissing := false
    appsWalk := [dirEntry "apps", jsonFile "apps/a.json" appFirst,
      jsonFile "apps/b.json" appNoName, jsonFile "apps/c.json" appSecond]
    now := 70000000000000000000
    loadTime := 70000000000000000000 }

/-- Callback invocation carrying a walk error, as for a directory that cannot be
opened. -/
def walkError {α : Type} (path msg : String) : WalkEntry α :=
  { path := path, err := some msg, isDir := true, content := .unreadable }

/-- The apps root does not exist. -/
def missingAppsWorld : World :=
  { sampleWorld with appsDirMissing := true, appsWalk := [] }

/-- The templates walk meets an unreadable directory after one valid file; the apps
root itself cannot be opened. -/
def errWorld : World :=
  { templatesWalk := [dirEntry "templates", jsonFile "templates/plex.json" tplMedia,
      dirEntry "templates/private",
      walkError "templates/private" "open templates/private: permission denied",
      jsonFile "templates/tool.json" tplTool]
    appsDirMissing := false
    appsWalk := [walkError "apps" "open apps: permission denied"]
    now := 80000000000000000000
    loadTime := 80000000000000000000 }

/-- The templates tree of `dupWorld`, with an apps root that cannot be opened. -/
def appsErrWorld : World :=
  { dupWorld with appsWalk := [walkError "apps" "open apps: permission denied"] }

/-! ## Lemmas on the walk -/

section walk
variable {α : Type}

theorem templateVisit_eq : templateVisit = visitWith Template.ID Template.Name Template.Category := by
  funext st e
  unfold templateVisit visitWith validRecord storeRecord
  cases e.err with
  | some err => rfl
  | none =>
    dsimp only
    split_ifs with h1
    · rfl
    · cases e.content with
      | unreadable => rfl
      | malformed => rfl
      | parsed v =>
        dsimp only
        split_ifs with h2 <;> rfl

theorem appVisit_eq : appVisit = visitWith App.ID App.Name App.Category := by
  funext st e
  unfold appVisit visitWith validRecord storeRecord
  cases e.err with
  | some err => rfl
  | none =>
    dsimp only
    split_ifs with h1
    · rfl
    · cases e.content with
      | unreadable => rfl
      | malformed => rfl
      | parsed v =>
        dsimp only
        split_ifs with h2 <;> rfl


theorem Walk_append {σ : Type} (fn : σ → WalkEntry α → σ × Option String) (s : σ)
    (xs ys : List (WalkEntry α)) :
    Walk fn s (xs ++ ys) =
      match Walk fn s xs with
      | (s', none) => Walk fn s' ys
      | (s', some err) => (s', some err) := by
  induction xs generalizing s with
  | nil => rfl
  | cons x xs ih =>
    simp only [List.cons_append, Walk]
    rcases h : fn s x with ⟨s', _ | err⟩
    · simpa using ih s'
    · rfl

theorem visitWith_err (ID Name Category : α → String)
    (st : AList (fun _ : String => α) × CategoryMap) (e : WalkEntry α) (err : String)
    (h : e.err = some err) : visitWith ID Name Category st e = (st, some err) := by
  unfold visitWith; rw [h]

theorem visitWith_skip (ID Name Category : α → String)
    (st : AList (fun _ : String => α) × CategoryMap) (e : WalkEntry α)
    (h : e.err = none) (hv : validRecord ID Name e = none) :
    visitWith ID Name Category st e = (st, none) := by
  unfold visitWith; rw [h]; dsimp only; rw [hv]

theorem visitWith_store (ID Name Category : α → String)
    (st : AList (fun _ : String => α) × CategoryMap) (e : WalkEntry α) (v : α)
    (hv : validRecord ID Name e = some v) :
    visitWith ID Name Category st e = (storeRecord ID Category st v, none) := by
  have h : e.err = none := by
    unfold validRecord at hv
    cases he : e.err with
    | none => rfl
    | some x => rw [he] at hv; simp at hv
  unfold visitWith; rw [h]; dsimp only; rw [hv]

/-- A walk without error is the left fold of `storeRecord` over its valid files. -/
theorem Walk_visitWith_ok (ID Name Category : α → String)
    (st : AList (fun _ : String => α) × CategoryMap) (es : List (WalkEntry α))
    (h : ∀ e ∈ es, e.err = none) :
    Walk (visitWith ID Name Category) st es =
      ((validRecords ID Name es).foldl (storeRecord ID Category) st, none) := by
  induction es generalizing st with
  | nil => rfl
  | cons e es ih =>
    have he : e.err = none := h e (List.mem_cons_self _ _)
    have hes : ∀ x ∈ es, x.err = none := fun x hx => h x (List.mem_cons_of_mem _ hx)
    unfold validRecords at ih ⊢
    rw [Walk]
    cases hv : validRecord ID Name e with
    | none =>
      rw [visitWith_skip ID Name Category st e he hv, List.filterMap_cons_none hv]
      exact ih st hes
    | some v =>
      rw [visitWith_store ID Name Category st e v hv, List.filterMap_cons_some hv]
      exact ih _ hes

/-- A walk returns an error exactly when some callback invocation carries one. -/
theorem Walk_visitWith_err (ID Name Category : α → String)
    (st : AList (fun _ : String => α) × CategoryMap) (es : List (WalkEntry α)) :
    (Walk (visitWith ID Name Category) st es).2 = none ↔ ∀ e ∈ es, e.err = none := by
  induction es generalizing st with
  | nil => simp [Walk]
  | cons e es ih =>
    rw [Walk]
    cases he : e.err with
    | some err => rw [visitWith_err ID Name Category st e err he]; simp [he]
    | none =>
      cases hv : validRecord ID Name e with
      | none => rw [visitWith_skip ID Name Category st e he hv]; simp [ih, he]
      | some v => rw [visitWith_store ID Name Category st e v hv]; simp [ih, he]

/-- Looking up `id` after storing the records of `l` one after the other. -/
theorem lookup_foldl_storeRecord (ID Category : α → String) (id : String) (l : List α)
    (st : AList (fun _ : String => α) × CategoryMap) :
    (l.foldl (storeRecord ID Category) st).1.lookup id =
      match lastWithID ID id l with
      | some v => some v
      | none => st.1.lookup id := by
  induction l using List.reverseRecOn with
  | nil => simp [lastWithID]
  | append_singleton l v ih =>
    rw [List.foldl_append]
    simp only [List.foldl_cons, List.foldl_nil]
    unfold lastWithID at ih ⊢
    rw [List.filter_append]
    by_cases hid : ID v = id
    · have : List.filter (fun v => decide (ID v = id)) [v] = [v] := by simp [hid]
      rw [this, List.getLast?_append]
      simp only [List.getLast?_singleton, Option.or_some]
      unfold storeRecord
      simp only []
      rw [← hid]
      exact AList.lookup_insert _
    · have : List.filter (fun v => decide (ID v = id)) [v] = [] := by simp [hid]
      rw [this, List.append_nil, ← ih]
      unfold storeRecord
      simp only []
      exact AList.lookup_insert_ne (fun h => hid h.symm)

/-- With pairwise distinct IDs, the last record with the ID of `v` is `v`. -/
theorem lastWithID_of_nodup (ID : α → String) (l : List α) (hnd : (l.map ID).Nodup)
    (v : α) (hv : v ∈ l) : lastWithID ID (ID v) l = some v := by
  induction l with
  | nil => simp at hv
  | cons x xs ih =>
    rw [List.map_cons, List.nodup_cons] at hnd
    unfold lastWithID at ih ⊢
    rcases List.mem_cons.mp hv with rfl | hxs
    · have hnone : xs.filter (fun u => decide (ID u = ID v)) = [] := by
        rw [List.filter_eq_nil_iff]
        intro u hu
        simp only [decide_eq_true_eq]
        intro h
        exact hnd.1 (h ▸ List.mem_map_of_mem ID hu)
      rw [List.filter_cons_of_pos (by simp), hnone]
      rfl
    · have hne : ID x ≠ ID v := fun h => hnd.1 (h ▸ List.mem_map_of_mem ID hxs)
      rw [List.filter_cons_of_neg (by simpa using hne)]
      exact ih hnd.2 hxs

end walk

/-! ## Lemmas on the scans -/

theorem loadTemplates_templates (r : Registry) (w : World) :
    (loadTemplates r w).1.templates = (Walk templateVisit (∅, ∅) w.templatesWalk).1.1 := by
  unfold loadTemplates
  dsimp only
  split <;> rfl

theorem loadTemplates_err (r : Registry) (w : World) :
    (loadTemplates r w).2 = (Walk templateVisit (∅, ∅) w.templatesWalk).2 := by
  unfold loadTemplates
  dsimp only
  split <;> simp_all

theorem loadTemplates_apps (r : Registry) (w : World) :
    (loadTemplates r w).1.apps = r.apps ∧ (loadTemplates r w).1.appCategories = r.appCategories ∧
      (loadTemplates r w).1.cacheTTL = r.cacheTTL := by
  unfold loadTemplates
  dsimp only
  split <;> exact ⟨rfl, rfl, rfl⟩

theorem loadApps_missing (r : Registry) (w : World) (h : w.appsDirMissing = true) :
    loadApps r w = (r, none) := by
  unfold loadApps
  rw [if_pos h]

theorem loadApps_apps (r : Registry) (w : World) (h : w.appsDirMissing = false) :
    (loadApps r w).1.apps = (Walk appVisit (∅, ∅) w.appsWalk).1.1 := by
  unfold loadApps
  rw [if_neg (by simp [h])]
  dsimp only
  split <;> rfl

theorem loadApps_err (r : Registry) (w : World) (h : w.appsDirMissing = false) :
    (loadApps r w).2 = (Walk appVisit (∅, ∅) w.appsWalk).2 := by
  unfold loadApps
  rw [if_neg (by simp [h])]
  dsimp only
  split <;> simp_all

theorem loadApps_templates (r : Registry) (w : World) :
    (loadApps r w).1.templates = r.templates ∧ (loadApps r w).1.categories = r.categories ∧
      (loadApps r w).1.lastLoad = r.lastLoad ∧ (loadApps r w).1.cacheTTL = r.cacheTTL := by
  unfold loadApps
  split
  · exact ⟨rfl, rfl, rfl, rfl⟩
  · dsimp only
    split <;> exact ⟨rfl, rfl, rfl, rfl⟩

theorem Initialize_templates (r : Registry) (w : World) :
    (Initialize r w).1.templates = (Walk templateVisit (∅, ∅) w.templatesWalk).1.1 := by
  rw [← loadTemplates_templates r w]
  unfold Initialize
  split
  · next r1 err h => simp [h]
  · next r1 h => simp [h, (loadApps_templates r1 w).1]

theorem Initialize_err (r : Registry) (w : World) :
    (Initialize r w).2 = none ↔ (loadTemplates r w).2 = none := by
  unfold Initialize
  split
  · next r1 err h => simp [h]
  · next r1 h => simp [h]

theorem Initialize_apps (r : Registry) (w : World) :
    (Initialize r w).1.apps = r.apps ∨
      (w.appsDirMissing = false ∧
        (Initialize r w).1.apps = (Walk appVisit (∅, ∅) w.appsWalk).1.1) := by
  have ha := (loadTemplates_apps r w).1
  unfold Initialize
  split
  · next r1 err h => left; simpa [h] using ha
  · next r1 h =>
    rw [h] at ha
    dsimp only at ha ⊢
    cases hm : w.appsDirMissing with
    | true => left; rw [loadApps_missing r1 w hm]; exact ha
    | false => right; exact ⟨rfl, loadApps_apps r1 w hm⟩

theorem Reload_templates (r : Registry) (w : World) :
    (Reload r w).1.templates = r.templates ∨
      (Reload r w).1.templates = (Walk templateVisit (∅, ∅) w.templatesWalk).1.1 := by
  unfold Reload
  split
  · right; exact Initialize_templates r w
  · left; rfl

theorem Reload_apps (r : Registry) (w : World) :
    (Reload r w).1.apps = r.apps ∨
      (w.appsDirMissing = false ∧
        (Reload r w).1.apps = (Walk appVisit (∅, ∅) w.appsWalk).1.1) := by
  unfold Reload
  split
  · exact Initialize_apps r w
  · left; rfl

/-! ## Lemmas on strings and maps -/

theorem Contains_iff (s sub : String) : Contains s sub = true ↔ sub.data <:+: s.data := by
  unfold Contains
  rw [List.any_eq_true]
  constructor
  · rintro ⟨t, ht, hp⟩
    rw [List.mem_tails] at ht
    rw [ List.isPrefixOf_iff_prefix] at hp
    exact List.infix_iff_prefix_suffix.mpr ⟨t, hp, ht⟩
  · intro h
    obtain ⟨t, hp, ht⟩ := List.infix_iff_prefix_suffix.mp h
    exact ⟨t, (List.mem_tails _ _).mpr ht, List.isPrefixOf_iff_prefix.mpr hp⟩

theorem lookup_cases {β : Type} (id : String) (m : AList (fun _ : String => β)) :
    (∀ v, m.lookup id = some v ↔ Sigma.mk id v ∈ m.entries) ∧
      (m.lookup id = none ↔ id ∉ m.keys) := by
  refine ⟨fun v => ?_, ?_⟩
  · rw [← AList.mem_lookup_iff]; simp
  · rw [AList.lookup_eq_none, AList.mem_keys]

/-! ## C1: get by identifier -/

/-- C1: `GetTemplate` and `GetApp` read the snapshot left by `Reload`; they return the
record stored under exactly the key `id` with a nil error when the record map has
such an entry, and no record with the not-found error when it has none. -/
theorem get_returns_entry_or_not_found (r : Registry) (w : World) (id : String) :
    ((GetTemplate r w id).1 = (Reload r w).1 ∧
      (∀ tpl, Sigma.mk id tpl ∈ (Reload r w).1.templates.entries ↔
        (GetTemplate r w id).2 = (some tpl, none)) ∧
      (id ∉ (Reload r w).1.templates.keys ↔
        (GetTemplate r w id).2 = (none, some ("template not found: " ++ id)))) ∧
    ((GetApp r w id).1 = (Reload r w).1 ∧
      (∀ app, Sigma.mk id app ∈ (Reload r w).1.apps.entries ↔
        (GetApp r w id).2 = (some app, none)) ∧
      (id ∉ (Reload r w).1.apps.keys ↔
        (GetApp r w id).2 = (none, some ("app not found: " ++ id)))) := by
  constructor
  · obtain ⟨h1, h2⟩ := lookup_cases id (Reload r w).1.templates
    unfold GetTemplate
    dsimp only
    cases h : AList.lookup id (Reload r w).1.templates with
    | none =>
      refine ⟨rfl, fun tpl => ?_, ?_⟩
      · rw [← h1, h]; simp
      · rw [← h2]; simp [h]
    | some t =>
      refine ⟨rfl, fun tpl => ?_, ?_⟩
      · rw [← h1, h]; simp
      · rw [← h2]; simp [h]
  · obtain ⟨h1, h2⟩ := lookup_cases id (Reload r w).1.apps
    unfold GetApp
    dsimp only
    cases h : AList.lookup id (Reload r w).1.apps with
    | none =>
      refine ⟨rfl, fun app => ?_, ?_⟩
      · rw [← h1, h]; simp
      · rw [← h2]; simp [h]
    | some t =>
      refine ⟨rfl, fun app => ?_, ?_⟩
      · rw [← h1, h]; simp
      · rw [← h2]; simp [h]

/-- Witness of C1 on the sample registry: the stored template `plex` is returned,
and `nonexistent` is not found for both kinds. -/
theorem get_returns_entry_or_not_found_witness :
    (GetTemplate sampleRegistry sampleWorld "plex").2 = (some tplMedia, none) ∧
      (GetTemplate sampleRegistry sampleWorld "nonexistent").2 =
        (none, some "template not found: nonexistent") ∧
      (GetApp sampleRegistry sampleWorld "nonexistent").2 =
        (none, some "app not found: nonexistent") :=
  ⟨((get_returns_entry_or_not_found sampleRegistry sampleWorld "plex").1.2.1 tplMedia).mp
      (by decide),
    (get_returns_entry_or_not_found sampleRegistry sampleWorld "nonexistent").1.2.2.mp
      (by decide),
    (get_returns_entry_or_not_found sampleRegistry sampleWorld "nonexistent").2.2.2.mp
      (by decide)⟩

/-! ## C2: search -/

theorem templateMatches_iff (toLower : String → String) (q : String) (tpl : Template) :
    templateMatches toLower q tpl = true ↔
      (q.data <:+: (toLower tpl.Name).data ∨ q.data <:+: (toLower tpl.Description).data ∨
        q.data <:+: (toLower tpl.Category).data) := by
  unfold templateMatches
  simp only [Bool.or_eq_true, Contains_iff, or_assoc]

theorem appMatches_iff (toLower : String → String) (q : String) (app : App) :
    appMatches toLower q app = true ↔
      (q.data <:+: (toLower app.Name).data ∨ q.data <:+: (toLower app.Description).data ∨
        q.data <:+: (toLower app.Category).data) := by
  unfold appMatches
  simp only [Bool.or_eq_true, Contains_iff, or_assoc]

/-- C2: `SearchTemplates` and `SearchApps` return a nil error and, in snapshot
order, one metadata projection for each record of the snapshot for which the
lowered query is a substring of the lowered name, description or category, and
nothing else; so the projection of a stored record is in the result exactly when
the record matches. `toLower` is `strings.ToLower`. -/
theorem search_returns_exactly_matches (toLower : String → String) (r : Registry) (w : World)
    (q : String) :
    ((SearchTemplates toLower r w q).1 = (Reload r w).1 ∧
      (SearchTemplates toLower r w q).2.2 = none ∧
      (SearchTemplates toLower r w q).2.1 =
        (((Reload r w).1.templates.entries.filter (fun e => decide
          ((toLower q).data <:+: (toLower e.2.Name).data ∨
            (toLower q).data <:+: (toLower e.2.Description).data ∨
            (toLower q).data <:+: (toLower e.2.Category).data))).map
          (fun e => templateMetadata e.2)) ∧
      (∀ e ∈ (Reload r w).1.templates.entries,
        templateMetadata e.2 ∈ (SearchTemplates toLower r w q).2.1 ↔
          ((toLower q).data <:+: (toLower e.2.Name).data ∨
            (toLower q).data <:+: (toLower e.2.Description).data ∨
            (toLower q).data <:+: (toLower e.2.Category).data))) ∧
    ((SearchApps toLower r w q).1 = (Reload r w).1 ∧
      (SearchApps toLower r w q).2.2 = none ∧
      (SearchApps toLower r w q).2.1 =
        (((Reload r w).1.apps.entries.filter (fun e => decide
          ((toLower q).data <:+: (toLower e.2.Name).data ∨
            (toLower q).data <:+: (toLower e.2.Description).data ∨
            (toLower q).data <:+: (toLower e.2.Category).data))).map
          (fun e => appMetadata e.2)) ∧
      (∀ e ∈ (Reload r w).1.apps.entries,
        appMetadata e.2 ∈ (SearchApps toLower r w q).2.1 ↔
          ((toLower q).data <:+: (toLower e.2.Name).data ∨
            (toLower q).data <:+: (toLower e.2.Description).data ∨
            (toLower q).data <:+: (toLower e.2.Category).data))) := by
  constructor
  · have hfil : (Reload r w).1.templates.entries.filter
          (fun e => templateMatches toLower (toLower q) e.2) =
        (Reload r w).1.templates.entries.filter (fun e => decide
          ((toLower q).data <:+: (toLower e.2.Name).data ∨
            (toLower q).data <:+: (toLower e.2.Description).data ∨
            (toLower q).data <:+: (toLower e.2.Category).data)) := by
      apply List.filter_congr
      intro e _
      rw [Bool.eq_iff_iff, templateMatches_iff]
      simp
    refine ⟨rfl, rfl, ?_, ?_⟩
    · unfold SearchTemplates
      dsimp only
      rw [hfil]
    · intro e he
      unfold SearchTemplates
      dsimp only
      rw [List.mem_map]
      constructor
      · rintro ⟨e', he', heq⟩
        have hm := (List.mem_filter.mp he').2
        rw [templateMatches_iff] at hm
        have h1 : e'.2.Name = e.2.Name := congrArg TemplateMetadata.Name heq
        have h2 : e'.2.Description = e.2.Description := congrArg TemplateMetadata.Description heq
        have h3 : e'.2.Category = e.2.Category := congrArg TemplateMetadata.Category heq
        rw [h1, h2, h3] at hm
        exact hm
      · intro hm
        exact ⟨e, List.mem_filter.mpr ⟨he, (templateMatches_iff _ _ _).mpr hm⟩, rfl⟩
  · have hfil : (Reload r w).1.apps.entries.filter
          (fun e => appMatches toLower (toLower q) e.2) =
        (Reload r w).1.apps.entries.filter (fun e => decide
          ((toLower q).data <:+: (toLower e.2.Name).data ∨
            (toLower q).data <:+: (toLower e.2.Description).data ∨
            (toLower q).data <:+: (toLower e.2.Category).data)) := by
      apply List.filter_congr
      intro e _
      rw [Bool.eq_iff_iff, appMatches_iff]
      simp
    refine ⟨rfl, rfl, ?_, ?_⟩
    · unfold SearchApps
      dsimp only
      rw [hfil]
    · intro e he
      unfold SearchApps
      dsimp only
      rw [List.mem_map]
      constructor
      · rintro ⟨e', he', heq⟩
        have hm := (List.mem_filter.mp he').2
        rw [appMatches_iff] at hm
        have h1 : e'.2.Name = e.2.Name := congrArg AppMetadata.Name heq
        have h2 : e'.2.Description = e.2.Description := congrArg AppMetadata.Description heq
        have h3 : e'.2.Category = e.2.Category := congrArg AppMetadata.Category heq
        rw [h1, h2, h3] at hm
        exact hm
      · intro hm
        exact ⟨e, List.mem_filter.mpr ⟨he, (appMatches_iff _ _ _).mpr hm⟩, rfl⟩

/-- Witness of C2: on the sample registry, searching "media" with ASCII lowering
returns "Media Server" (name match) and the record described as "great media
tool" (description match), and not "Backup". -/
theorem search_returns_exactly_matches_witness :
    (templateMetadata tplMedia ∈ (SearchTemplates asciiToLower sampleRegistry sampleWorld "media").2.1 ∧
      templateMetadata tplTool ∈ (SearchTemplates asciiToLower sampleRegistry sampleWorld "media").2.1 ∧
      templateMetadata tplBackup ∉ (SearchTemplates asciiToLower sampleRegistry sampleWorld "media").2.1) ∧
    (appMetadata appMedia ∈ (SearchApps asciiToLower sampleRegistry sampleWorld "media").2.1 ∧
      appMetadata appTool ∈ (SearchApps asciiToLower sampleRegistry sampleWorld "media").2.1 ∧
      appMetadata appBackup ∉ (SearchApps asciiToLower sampleRegistry sampleWorld "media").2.1) :=
  ⟨⟨((search_returns_exactly_matches asciiToLower sampleRegistry sampleWorld "media").1.2.2.2
        ⟨"plex", tplMedia⟩ (by decide)).mpr (by decide),
      ((search_returns_exactly_matches asciiToLower sampleRegistry sampleWorld "media").1.2.2.2
        ⟨"tool", tplTool⟩ (by decide)).mpr (by decide),
      fun h => absurd
        (((search_returns_exactly_matches asciiToLower sampleRegistry sampleWorld "media").1.2.2.2
          ⟨"backup", tplBackup⟩ (by decide)).mp h) (by decide)⟩,
    ⟨((search_returns_exactly_matches asciiToLower sampleRegistry sampleWorld "media").2.2.2.2
        ⟨"plex", appMedia⟩ (by decide)).mpr (by decide),
      ((search_returns_exactly_matches asciiToLower sampleRegistry sampleWorld "media").2.2.2.2
        ⟨"tool", appTool⟩ (by decide)).mpr (by decide),
      fun h => absurd
        (((search_returns_exactly_matches asciiToLower sampleRegistry sampleWorld "media").2.2.2.2
          ⟨"backup", appBackup⟩ (by decide)).mp h) (by decide)⟩⟩

/-! ## C3: a scan keeps the last valid file of each ID -/

theorem Reload_of_fresh (r : Registry) (w : World) (h : needsReload r w = false) :
    Reload r w = (r, none) := by
  unfold Reload
  rw [h]
  rfl

/-- The record map a successful walk builds, as a function of the valid files. -/
theorem Walk_templateVisit_lookup (es : List (WalkEntry Template)) (id : String)
    (h : (Walk templateVisit (∅, ∅) es).2 = none) :
    (Walk templateVisit (∅, ∅) es).1.1.lookup id =
      lastWithID Template.ID id (validRecords Template.ID Template.Name es) := by
  rw [templateVisit_eq] at h ⊢
  have hok := (Walk_visitWith_err _ _ _ _ es).mp h
  rw [Walk_visitWith_ok _ _ _ _ es hok, lookup_foldl_storeRecord]
  cases lastWithID Template.ID id (validRecords Template.ID Template.Name es) <;> simp

theorem Walk_appVisit_lookup (es : List (WalkEntry App)) (id : String)
    (h : (Walk appVisit (∅, ∅) es).2 = none) :
    (Walk appVisit (∅, ∅) es).1.1.lookup id =
      lastWithID App.ID id (validRecords App.ID App.Name es) := by
  rw [appVisit_eq] at h ⊢
  have hok := (Walk_visitWith_err _ _ _ _ es).mp h
  rw [Walk_visitWith_ok _ _ _ _ es hok, lookup_foldl_storeRecord]
  cases lastWithID App.ID id (validRecords App.ID App.Name es) <;> simp

/-- A query after a template scan reads the map of that scan, when no reload is
due or the templates tree is unchanged. -/
theorem Reload_templates_after_scan (r : Registry) (w w' : World)
    (h : needsReload (loadTemplates r w).1 w' = false ∨ w'.templatesWalk = w.templatesWalk) :
    (Reload (loadTemplates r w).1 w').1.templates =
      (Walk templateVisit (∅, ∅) w.templatesWalk).1.1 := by
  rcases h with h | h
  · rw [Reload_of_fresh _ _ h]
    exact loadTemplates_templates r w
  · rcases Reload_templates (loadTemplates r w).1 w' with h' | h'
    · rw [h']; exact loadTemplates_templates r w
    · rw [h', h]

/-- A query after an app scan reads the map of that scan, when no reload is due or
the apps tree is unchanged. -/
theorem Reload_apps_after_scan (r : Registry) (w w' : World) (hm : w.appsDirMissing = false)
    (h : needsReload (loadApps r w).1 w' = false ∨ w'.appsWalk = w.appsWalk) :
    (Reload (loadApps r w).1 w').1.apps = (Walk appVisit (∅, ∅) w.appsWalk).1.1 := by
  rcases h with h | h
  · rw [Reload_of_fresh _ _ h]
    exact loadApps_apps r w hm
  · rcases Reload_apps (loadApps r w).1 w' with h' | ⟨_, h'⟩
    · rw [h']; exact loadApps_apps r w hm
    · rw [h', h]

/-- C3: after a successful scan, the record map holds under `id` the record of the
last valid file, in scan order, whose ID is `id`, and nothing when there is no such
file; `GetTemplate` and `GetApp` then return that record, or the not-found error,
in every later world in which no reload is due or the tree is unchanged. When the
valid files have pairwise distinct IDs, the record of each of them is returned
under its ID. -/
theorem scan_then_get_last_valid (r : Registry) (w : World) (id : String) :
    ((loadTemplates r w).2 = none →
      (loadTemplates r w).1.templates.lookup id =
          lastWithID Template.ID id (validRecords Template.ID Template.Name w.templatesWalk) ∧
        (∀ w' : World,
          needsReload (loadTemplates r w).1 w' = false ∨ w'.templatesWalk = w.templatesWalk →
          (GetTemplate (loadTemplates r w).1 w' id).2 =
            match lastWithID Template.ID id
              (validRecords Template.ID Template.Name w.templatesWalk) with
            | some tpl => (some tpl, none)
            | none => (none, some ("template not found: " ++ id))) ∧
        (((validRecords Template.ID Template.Name w.templatesWalk).map Template.ID).Nodup →
          ∀ tpl ∈ validRecords Template.ID Template.Name w.templatesWalk, ∀ w' : World,
            needsReload (loadTemplates r w).1 w' = false ∨
              w'.templatesWalk = w.templatesWalk →
            (GetTemplate (loadTemplates r w).1 w' tpl.ID).2 = (some tpl, none))) ∧
    (w.appsDirMissing = false → (loadApps r w).2 = none →
      (loadApps r w).1.apps.lookup id =
          lastWithID App.ID id (validRecords App.ID App.Name w.appsWalk) ∧
        (∀ w' : World,
          needsReload (loadApps r w).1 w' = false ∨ w'.appsWalk = w.appsWalk →
          (GetApp (loadApps r w).1 w' id).2 =
            match lastWithID App.ID id (validRecords App.ID App.Name w.appsWalk) with
            | some app => (some app, none)
            | none => (none, some ("app not found: " ++ id))) ∧
        (((validRecords App.ID App.Name w.appsWalk).map App.ID).Nodup →
          ∀ app ∈ validRecords App.ID App.Name w.appsWalk, ∀ w' : World,
            needsReload (loadApps r w).1 w' = false ∨ w'.appsWalk = w.appsWalk →
            (GetApp (loadApps r w).1 w' app.ID).2 = (some app, none))) := by
  constructor
  · intro hok
    rw [loadTemplates_err] at hok
    have hget : ∀ (i : String) (w' : World),
        needsReload (loadTemplates r w).1 w' = false ∨ w'.templatesWalk = w.templatesWalk →
        (GetTemplate (loadTemplates r w).1 w' i).2 =
          match lastWithID Template.ID i
            (validRecords Template.ID Template.Name w.templatesWalk) with
          | some tpl => (some tpl, none)
          | none => (none, some ("template not found: " ++ i)) := by
      intro i w' hw'
      unfold GetTemplate
      dsimp only
      rw [Reload_templates_after_scan r w w' hw', Walk_templateVisit_lookup _ i hok]
      cases lastWithID Template.ID i (validRecords Template.ID Template.Name w.templatesWalk)
        <;> rfl
    refine ⟨?_, hget id, ?_⟩
    · rw [loadTemplates_templates, Walk_templateVisit_lookup _ id hok]
    · intro hnd tpl htpl w' hw'
      rw [hget tpl.ID w' hw', lastWithID_of_nodup Template.ID _ hnd tpl htpl]
  · intro hm hok
    rw [loadApps_err r w hm] at hok
    have hget : ∀ (i : String) (w' : World),
        needsReload (loadApps r w).1 w' = false ∨ w'.appsWalk = w.appsWalk →
        (GetApp (loadApps r w).1 w' i).2 =
          match lastWithID App.ID i (validRecords App.ID App.Name w.appsWalk) with
          | some app => (some app, none)
          | none => (none, some ("app not found: " ++ i)) := by
      intro i w' hw'
      unfold GetApp
      dsimp only
      rw [Reload_apps_after_scan r w w' hm hw', Walk_appVisit_lookup _ i hok]
      cases lastWithID App.ID i (validRecords App.ID App.Name w.appsWalk) <;> rfl
    refine ⟨?_, hget id, ?_⟩
    · rw [loadApps_apps r w hm, Walk_appVisit_lookup _ id hok]
    · intro hnd app happ w' hw'
      rw [hget app.ID w' hw', lastWithID_of_nodup App.ID _ hnd app happ]

/-- Witness of C3: of two valid files with ID `dup` the later one is returned, the
file without a name is not found, and with distinct IDs `plex` gives its file. -/
theorem scan_then_get_last_valid_witness :
    ((GetTemplate (loadTemplates sampleRegistry dupWorld).1 dupWorld "dup").2 =
        (some tplSecond, none) ∧
      (GetTemplate (loadTemplates sampleRegistry dupWorld).1 dupWorld "anon").2 =
        (none, some "template not found: anon") ∧
      (GetTemplate (loadTemplates sampleRegistry sampleWorld).1 sampleWorld "plex").2 =
        (some tplMedia, none)) ∧
    ((GetApp (loadApps sampleRegistry dupWorld).1 dupWorld "dup").2 = (some appSecond, none) ∧
      (GetApp (loadApps sampleRegistry dupWorld).1 dupWorld "anon").2 =
        (none, some "app not found: anon") ∧
      (GetApp (loadApps sampleRegistry sampleWorld).1 sampleWorld "plex").2 =
        (some appMedia, none)) :=
  ⟨⟨((scan_then_get_last_valid sampleRegistry dupWorld "dup").1 (by decide)).2.1 dupWorld
        (Or.inr rfl),
      ((scan_then_get_last_valid sampleRegistry dupWorld "anon").1 (by decide)).2.1 dupWorld
        (Or.inr rfl),
      ((scan_then_get_last_valid sampleRegistry sampleWorld "plex").1 (by decide)).2.2
        (by decide) tplMedia (by decide) sampleWorld (Or.inr rfl)⟩,
    ⟨((scan_then_get_last_valid sampleRegistry dupWorld "dup").2 rfl (by decide)).2.1 dupWorld
        (Or.inr rfl),
      ((scan_then_get_last_valid sampleRegistry dupWorld "anon").2 rfl (by decide)).2.1 dupWorld
        (Or.inr rfl),
      ((scan_then_get_last_valid sampleRegistry sampleWorld "plex").2 rfl (by decide)).2.2
        (by decide) appMedia (by decide) sampleWorld (Or.inr rfl)⟩⟩

/-! ## C4: bad files are skipped -/

section clean
variable {α : Type}

theorem validRecord_of_badFile (ID Name : α → String) (e : WalkEntry α)
    (h : badFile ID Name e) : validRecord ID Name e = none := by
  obtain ⟨herr, hc⟩ := h
  unfold validRecord
  rw [herr]
  dsimp only
  split_ifs
  · rfl
  · rcases hc with hc | hc | ⟨v, hc, hv⟩
    · rw [hc]
    · rw [hc]
    · rw [hc]
      dsimp only
      rw [if_pos (by simpa using hv)]

theorem validRecord_nonempty (ID Name : α → String) (e : WalkEntry α) (v : α)
    (h : validRecord ID Name e = some v) : ID v ≠ "" ∧ Name v ≠ "" := by
  unfold validRecord at h
  cases he : e.err with
  | some x => rw [he] at h; simp at h
  | none =>
    rw [he] at h
    dsimp only at h
    split_ifs at h with h1
    cases hc : e.content with
    | unreadable => rw [hc] at h; simp at h
    | malformed => rw [hc] at h; simp at h
    | parsed u =>
      rw [hc] at h
      dsimp only at h
      split_ifs at h with h2
      have huv : u = v := by simpa using h
      subst huv
      simpa [not_or] using h2

/-- A skipped file can be removed from the walk without changing its result. -/
theorem Walk_visitWith_remove (ID Name Category : α → String)
    (st : AList (fun _ : String => α) × CategoryMap) (pre post : List (WalkEntry α))
    (e : WalkEntry α) (herr : e.err = none) (hv : validRecord ID Name e = none) :
    Walk (visitWith ID Name Category) st (pre ++ e :: post) =
      Walk (visitWith ID Name Category) st (pre ++ post) := by
  rw [Walk_append, Walk_append]
  rcases Walk (visitWith ID Name Category) st pre with ⟨s', _ | err⟩
  · dsimp only
    rw [Walk, visitWith_skip ID Name Category s' e herr hv]
  · rfl

/-- Whatever a walk leaves in the record map has a non-empty ID and Name, also
when the walk stops on an error. -/
theorem Walk_visitWith_nonempty (ID Name Category : α → String)
    (st : AList (fun _ : String => α) × CategoryMap) (es : List (WalkEntry α))
    (hst : ∀ x ∈ st.1.entries, ID x.2 ≠ "" ∧ Name x.2 ≠ "") :
    ∀ x ∈ (Walk (visitWith ID Name Category) st es).1.1.entries, ID x.2 ≠ "" ∧ Name x.2 ≠ "" := by
  induction es generalizing st with
  | nil => exact hst
  | cons e es ih =>
    rw [Walk]
    cases he : e.err with
    | some err => rw [visitWith_err ID Name Category st e err he]; exact hst
    | none =>
      cases hv : validRecord ID Name e with
      | none => rw [visitWith_skip ID Name Category st e he hv]; exact ih st hst
      | some v =>
        rw [visitWith_store ID Name Category st e v hv]
        apply ih
        intro x hx
        unfold storeRecord at hx
        rw [AList.insert_entries] at hx
        rcases List.mem_cons.mp hx with rfl | hx
        · exact validRecord_nonempty ID Name e v hv
        · exact hst x ((List.kerase_sublist _ _).subset hx)

end clean

theorem loadTemplates_nonempty (r : Registry) (w : World) :
    ∀ x ∈ (loadTemplates r w).1.templates.entries, x.2.ID ≠ "" ∧ x.2.Name ≠ "" := by
  rw [loadTemplates_templates, templateVisit_eq]
  exact Walk_visitWith_nonempty _ _ _ _ _ (by simp)

theorem loadApps_nonempty (r : Registry) (w : World) (h : w.appsDirMissing = false) :
    ∀ x ∈ (loadApps r w).1.apps.entries, x.2.ID ≠ "" ∧ x.2.Name ≠ "" := by
  rw [loadApps_apps r w h, appVisit_eq]
  exact Walk_visitWith_nonempty _ _ _ _ _ (by simp)

theorem loadTemplates_clean (r : Registry) (w : World) (h : r.clean) :
    (loadTemplates r w).1.clean := by
  refine ⟨loadTemplates_nonempty r w, ?_⟩
  rw [(loadTemplates_apps r w).1]
  exact h.2

theorem loadApps_clean (r : Registry) (w : World) (h : r.clean) : (loadApps r w).1.clean := by
  refine ⟨?_, ?_⟩
  · rw [(loadApps_templates r w).1]; exact h.1
  · cases hm : w.appsDirMissing with
    | true => rw [loadApps_missing r w hm]; exact h.2
    | false => exact loadApps_nonempty r w hm

theorem Initialize_clean (r : Registry) (w : World) (h : r.clean) : (Initialize r w).1.clean := by
  have h1 := loadTemplates_clean r w h
  unfold Initialize
  split
  · next r1 err heq => rw [heq] at h1; exact h1
  · next r1 heq => rw [heq] at h1; exact loadApps_clean r1 w h1

theorem Reload_clean (r : Registry) (w : World) (h : r.clean) : (Reload r w).1.clean := by
  unfold Reload
  split
  · exact Initialize_clean r w h
  · exact h

theorem NewRegistry_clean (templatesDir appsDir : String) (cacheTTL : Duration) :
    (NewRegistry templatesDir appsDir cacheTTL).clean := by
  constructor <;> simp [NewRegistry]

theorem loadTemplates_congr (r : Registry) (w w' : World)
    (h : Walk templateVisit (∅, ∅) w.templatesWalk = Walk templateVisit (∅, ∅) w'.templatesWalk)
    (ht : w.loadTime = w'.loadTime) : loadTemplates r w = loadTemplates r w' := by
  unfold loadTemplates
  rw [h, ht]

theorem loadApps_congr (r : Registry) (w w' : World)
    (h : Walk appVisit (∅, ∅) w.appsWalk = Walk appVisit (∅, ∅) w'.appsWalk)
    (hm : w.appsDirMissing = w'.appsDirMissing) : loadApps r w = loadApps r w' := by
  unfold loadApps
  rw [h, hm]

theorem queries_nonempty (r : Registry) (w : World) (h : r.clean) (id q : String)
    (toLower : String → String) :
    (∀ tpl, (GetTemplate r w id).2.1 = some tpl → tpl.ID ≠ "" ∧ tpl.Name ≠ "") ∧
      (∀ m ∈ (ListTemplates r w).2.1, m.ID ≠ "" ∧ m.Name ≠ "") ∧
      (∀ m ∈ (SearchTemplates toLower r w q).2.1, m.ID ≠ "" ∧ m.Name ≠ "") ∧
      (∀ app, (GetApp r w id).2.1 = some app → app.ID ≠ "" ∧ app.Name ≠ "") ∧
      (∀ m ∈ (ListApps r w).2.1, m.ID ≠ "" ∧ m.Name ≠ "") ∧
      (∀ m ∈ (SearchApps toLower r w q).2.1, m.ID ≠ "" ∧ m.Name ≠ "") := by
  obtain ⟨ht, ha⟩ := Reload_clean r w h
  refine ⟨?_, ?_, ?_, ?_, ?_, ?_⟩
  · intro tpl hget
    unfold GetTemplate at hget
    dsimp only at hget
    cases hl : AList.lookup id (Reload r w).1.templates with
    | none => rw [hl] at hget; simp at hget
    | some t =>
      rw [hl] at hget
      have : t = tpl := by simpa using hget
      subst this
      exact ht ⟨id, t⟩ (AList.mem_lookup_iff.mp (by simp [hl]))
  · intro m hm
    unfold ListTemplates at hm
    obtain ⟨e, he, rfl⟩ := List.mem_map.mp hm
    exact ht e he
  · intro m hm
    unfold SearchTemplates at hm
    obtain ⟨e, he, rfl⟩ := List.mem_map.mp hm
    exact ht e (List.mem_filter.mp he).1
  · intro app hget
    unfold GetApp at hget
    dsimp only at hget
    cases hl : AList.lookup id (Reload r w).1.apps with
    | none => rw [hl] at hget; simp at hget
    | some t =>
      rw [hl] at hget
      have : t = app := by simpa using hget
      subst this
      exact ha ⟨id, t⟩ (AList.mem_lookup_iff.mp (by simp [hl]))
  · intro m hm
    unfold ListApps at hm
    obtain ⟨e, he, rfl⟩ := List.mem_map.mp hm
    exact ha e he
  · intro m hm
    unfold SearchApps at hm
    obtain ⟨e, he, rfl⟩ := List.mem_map.mp hm
    exact ha e (List.mem_filter.mp he).1

/-- C4: a file that cannot be read, does not decode, or decodes to a record with an
empty ID or an empty Name is skipped: the scan of either kind gives the same
registry and the same error result as the scan of the walk without that file, and
it succeeds exactly when the walk reports no error on the other entries. No
record with an empty ID or Name is in the map left by a scan; a registry that
holds none, as a new one does, still holds none after any operation, and `get`,
`list` and `search` then return none. -/
theorem bad_file_is_skipped (r : Registry) (w : World) :
    (∀ (pre post : List (WalkEntry Template)) (bad : WalkEntry Template),
      badFile Template.ID Template.Name bad → w.templatesWalk = pre ++ bad :: post →
      loadTemplates r w = loadTemplates r { w with templatesWalk := pre ++ post } ∧
        ((loadTemplates r w).2 = none ↔ ∀ e ∈ pre ++ post, e.err = none)) ∧
    (∀ (pre post : List (WalkEntry App)) (bad : WalkEntry App),
      badFile App.ID App.Name bad → w.appsWalk = pre ++ bad :: post →
      loadApps r w = loadApps r { w with appsWalk := pre ++ post } ∧
        (w.appsDirMissing = false →
          ((loadApps r w).2 = none ↔ ∀ e ∈ pre ++ post, e.err = none))) ∧
    (∀ x ∈ (loadTemplates r w).1.templates.entries, x.2.ID ≠ "" ∧ x.2.Name ≠ "") ∧
    (w.appsDirMissing = false →
      ∀ x ∈ (loadApps r w).1.apps.entries, x.2.ID ≠ "" ∧ x.2.Name ≠ "") ∧
    (∀ (templatesDir appsDir : String) (cacheTTL : Duration),
      (NewRegistry templatesDir appsDir cacheTTL).clean) ∧
    (r.clean →
      (loadTemplates r w).1.clean ∧ (loadApps r w).1.clean ∧ (Initialize r w).1.clean ∧
        (Reload r w).1.clean ∧
        ∀ (id q : String) (toLower : String → String),
          (∀ tpl, (GetTemplate r w id).2.1 = some tpl → tpl.ID ≠ "" ∧ tpl.Name ≠ "") ∧
          (∀ m ∈ (ListTemplates r w).2.1, m.ID ≠ "" ∧ m.Name ≠ "") ∧
          (∀ m ∈ (SearchTemplates toLower r w q).2.1, m.ID ≠ "" ∧ m.Name ≠ "") ∧
          (∀ app, (GetApp r w id).2.1 = some app → app.ID ≠ "" ∧ app.Name ≠ "") ∧
          (∀ m ∈ (ListApps r w).2.1, m.ID ≠ "" ∧ m.Name ≠ "") ∧
          (∀ m ∈ (SearchApps toLower r w q).2.1, m.ID ≠ "" ∧ m.Name ≠ "")) := by
  refine ⟨?_, ?_, loadTemplates_nonempty r w, loadApps_nonempty r w, NewRegistry_clean, ?_⟩
  · intro pre post bad hbad hw
    have hrm : Walk templateVisit (∅, ∅) (pre ++ bad :: post) =
        Walk templateVisit (∅, ∅) (pre ++ post) := by
      rw [templateVisit_eq]
      exact Walk_visitWith_remove _ _ _ _ pre post bad hbad.1 (validRecord_of_badFile _ _ _ hbad)
    have heq : loadTemplates r w = loadTemplates r { w with templatesWalk := pre ++ post } :=
      loadTemplates_congr r w _ (by rw [hw]; exact hrm) rfl
    refine ⟨heq, ?_⟩
    rw [heq, loadTemplates_err, templateVisit_eq]
    exact Walk_visitWith_err _ _ _ _ _
  · intro pre post bad hbad hw
    have hrm : Walk appVisit (∅, ∅) (pre ++ bad :: post) =
        Walk appVisit (∅, ∅) (pre ++ post) := by
      rw [appVisit_eq]
      exact Walk_visitWith_remove _ _ _ _ pre post bad hbad.1 (validRecord_of_badFile _ _ _ hbad)
    have heq : loadApps r w = loadApps r { w with appsWalk := pre ++ post } :=
      loadApps_congr r w _ (by rw [hw]; exact hrm) rfl
    refine ⟨heq, fun hm => ?_⟩
    rw [heq, loadApps_err r { w with appsWalk := pre ++ post } hm, appVisit_eq]
    exact Walk_visitWith_err _ _ _ _ _
  · intro h
    exact ⟨loadTemplates_clean r w h, loadApps_clean r w h, Initialize_clean r w h,
      Reload_clean r w h, fun id q toLower => queries_nonempty r w h id q toLower⟩

/-- Witness of C4 on `dupWorld`, whose middle file of each kind has no name: the
scans equal the scans without that file, and succeed. -/
theorem bad_file_is_skipped_witness :
    (loadTemplates sampleRegistry dupWorld =
        loadTemplates sampleRegistry { dupWorld with templatesWalk :=
          [dirEntry "templates", jsonFile "templates/a.json" tplFirst] ++
            [jsonFile "templates/c.json" tplSecond] } ∧
      (loadTemplates sampleRegistry dupWorld).2 = none) ∧
    (loadApps sampleRegistry dupWorld =
        loadApps sampleRegistry { dupWorld with appsWalk :=
          [dirEntry "apps", jsonFile "apps/a.json" appFirst] ++ [jsonFile "apps/c.json" appSecond] } ∧
      (loadApps sampleRegistry dupWorld).2 = none) ∧
    (Reload sampleRegistry dupWorld).1.clean :=
  ⟨⟨((bad_file_is_skipped sampleRegistry dupWorld).1
        [dirEntry "templates", jsonFile "templates/a.json" tplFirst]
        [jsonFile "templates/c.json" tplSecond] (jsonFile "templates/b.json" tplNoName)
        ⟨rfl, Or.inr (Or.inr ⟨tplNoName, rfl, Or.inr rfl⟩)⟩ rfl).1,
      (((bad_file_is_skipped sampleRegistry dupWorld).1
        [dirEntry "templates", jsonFile "templates/a.json" tplFirst]
        [jsonFile "templates/c.json" tplSecond] (jsonFile "templates/b.json" tplNoName)
        ⟨rfl, Or.inr (Or.inr ⟨tplNoName, rfl, Or.inr rfl⟩)⟩ rfl).2).mpr (by decide)⟩,
    ⟨((bad_file_is_skipped sampleRegistry dupWorld).2.1
        [dirEntry "apps", jsonFile "apps/a.json" appFirst]
        [jsonFile "apps/c.json" appSecond] (jsonFile "apps/b.json" appNoName)
        ⟨rfl, Or.inr (Or.inr ⟨appNoName, rfl, Or.inr rfl⟩)⟩ rfl).1,
      (((bad_file_is_skipped sampleRegistry dupWorld).2.1
        [dirEntry "apps", jsonFile "apps/a.json" appFirst]
        [jsonFile "apps/c.json" appSecond] (jsonFile "apps/b.json" appNoName)
        ⟨rfl, Or.inr (Or.inr ⟨appNoName, rfl, Or.inr rfl⟩)⟩ rfl).2 rfl).mpr (by decide)⟩,
    ((bad_file_is_skipped sampleRegistry dupWorld).2.2.2.2.2
      ((bad_file_is_skipped (NewRegistry "./templates" "./apps" 3600000000000)
        sampleWorld).2.2.2.2.2
        ((bad_file_is_skipped sampleRegistry dupWorld).2.2.2.2.1 _ _ _)).2.2.1).2.2.2.1⟩

/-! ## C5: categories after a scan with a repeated ID -/

/-- C5 (the code at the failing input): `Initialize` of a new registry on
`dupWorld` succeeds; the record maps then hold one record, of category `beta`,
but `GetTemplateCategories` and `GetAppCategories` also return `alpha`, the
category of the overwritten file, which no stored record has. -/
theorem categories_keep_overwritten_file :
    (Initialize (NewRegistry "./templates" "./apps" 3600000000000) dupWorld).2 = none ∧
    ((ListTemplates (Initialize (NewRegistry "./templates" "./apps" 3600000000000)
        dupWorld).1 dupWorld).2.1.map (fun m => m.Category) = ["beta"] ∧
      "alpha" ∈ (GetTemplateCategories (Initialize (NewRegistry "./templates" "./apps"
        3600000000000) dupWorld).1 dupWorld).2 ∧
      ∀ e ∈ (GetTemplateCategories (Initialize (NewRegistry "./templates" "./apps"
        3600000000000) dupWorld).1 dupWorld).1.templates.entries, e.2.Category ≠ "alpha") ∧
    ((ListApps (Initialize (NewRegistry "./templates" "./apps" 3600000000000)
        dupWorld).1 dupWorld).2.1.map (fun m => m.Category) = ["beta"] ∧
      "alpha" ∈ (GetAppCategories (Initialize (NewRegistry "./templates" "./apps"
        3600000000000) dupWorld).1 dupWorld).2 ∧
      ∀ e ∈ (GetAppCategories (Initialize (NewRegistry "./templates" "./apps"
        3600000000000) dupWorld).1 dupWorld).1.apps.entries, e.2.Category ≠ "alpha") := by
  decide

/-! ## C6: reload policy -/

/-- Below the largest duration, comparing the saturated difference with the TTL is
comparing the difference itself. -/
theorem Since_gt_iff (now t : Time) (ttl : Duration) (hlo : minDuration ≤ ttl)
    (hhi : ttl < maxDuration) : Since now t > ttl ↔ now - t > ttl := by
  unfold Since Sub
  split_ifs with h1 h2
  · constructor
    · intro _; exact lt_trans hhi h1
    · intro _; exact hhi
  · constructor
    · intro h; exact absurd (lt_of_le_of_lt hlo h) (lt_irrefl _)
    · intro h; exact absurd (lt_trans (lt_of_le_of_lt hlo h) h2) (lt_irrefl _)
  · exact Iff.rfl

theorem needsReload_iff (r : Registry) (w : World) (hlo : minDuration ≤ r.cacheTTL)
    (hhi : r.cacheTTL < maxDuration) :
    needsReload r w = true ↔ w.now - r.lastLoad > r.cacheTTL := by
  unfold needsReload
  rw [decide_eq_true_iff]
  exact Since_gt_iff _ _ _ hlo hhi

theorem Reload_of_expired (r : Registry) (w : World) (h : needsReload r w = true) :
    Reload r w = Initialize r w := by
  unfold Reload
  rw [if_pos h]

/-- With the largest duration as TTL the saturated elapsed time never exceeds it:
no query ever rescans. -/
theorem Reload_of_max_ttl (r : Registry) (w : World) (h : r.cacheTTL = maxDuration) :
    needsReload r w = false ∧ Reload r w = (r, none) := by
  have hle : Since w.now r.lastLoad ≤ maxDuration := by
    unfold Since Sub
    split_ifs with h1 h2
    · exact le_refl _
    · unfold minDuration maxDuration; decide
    · exact not_lt.mp h1
  have hn : needsReload r w = false := by
    unfold needsReload
    rw [decide_eq_false_iff_not, h]
    exact not_lt.mpr hle
  exact ⟨hn, Reload_of_fresh r w hn⟩

theorem loadTemplates_lastLoad (r : Registry) (w : World) (h : (loadTemplates r w).2 = none) :
    (loadTemplates r w).1.lastLoad = w.loadTime := by
  unfold loadTemplates at h ⊢
  dsimp only at h ⊢
  split
  · next err heq => rw [heq] at h; simp at h
  · rfl

/-- C6, as amended: for a TTL within the `Duration` range and below its largest
value, `needsReload` holds exactly when `now - lastLoad > cacheTTL`; `Reload` then
is `Initialize` (template scan, then app scan), and otherwise returns the registry
unchanged with no error. So with `lastLoad = T0`, a query at `T0 + e`,
`0 ≤ e < TTL`, leaves the registry and its timestamp unchanged, a query at
`T0 + TTL + e`, `e > 0`, rescans, and a new registry rescans on a first query made
at a clock reading above the TTL. A successful template scan sets `lastLoad` to
its clock reading, and every query starts with `Reload`. -/
theorem reload_iff_elapsed_exceeds_ttl (r : Registry) (w : World)
    (hlo : minDuration ≤ r.cacheTTL) (hhi : r.cacheTTL < maxDuration) :
    (needsReload r w = true ↔ w.now - r.lastLoad > r.cacheTTL) ∧
    (w.now - r.lastLoad > r.cacheTTL → Reload r w = Initialize r w) ∧
    (w.now - r.lastLoad ≤ r.cacheTTL → Reload r w = (r, none)) ∧
    (∀ e : Duration, 0 ≤ e → e < r.cacheTTL → w.now = r.lastLoad + e →
      Reload r w = (r, none) ∧ (Reload r w).1.lastLoad = r.lastLoad) ∧
    (∀ e : Duration, 0 < e → w.now = r.lastLoad + r.cacheTTL + e →
      Reload r w = Initialize r w) ∧
    (∀ templatesDir appsDir : String, r.cacheTTL < w.now →
      Reload (NewRegistry templatesDir appsDir r.cacheTTL) w =
        Initialize (NewRegistry templatesDir appsDir r.cacheTTL) w) ∧
    ((loadTemplates r w).2 = none → (loadTemplates r w).1.lastLoad = w.loadTime) ∧
    (∀ (id q : String) (toLower : String → String),
      (GetTemplate r w id).1 = (Reload r w).1 ∧ (ListTemplates r w).1 = (Reload r w).1 ∧
        (GetTemplateCategories r w).1 = (Reload r w).1 ∧
        (SearchTemplates toLower r w q).1 = (Reload r w).1 ∧
        (GetApp r w id).1 = (Reload r w).1 ∧ (ListApps r w).1 = (Reload r w).1 ∧
        (GetAppCategories r w).1 = (Reload r w).1 ∧
        (SearchApps toLower r w q).1 = (Reload r w).1) := by
  have hiff := needsReload_iff r w hlo hhi
  have hyes : w.now - r.lastLoad > r.cacheTTL → Reload r w = Initialize r w :=
    fun h => Reload_of_expired r w (hiff.mpr h)
  have hno : w.now - r.lastLoad ≤ r.cacheTTL → Reload r w = (r, none) := by
    intro h
    apply Reload_of_fresh
    cases hn : needsReload r w with
    | false => rfl
    | true => exact absurd (hiff.mp hn) (not_lt.mpr h)
  refine ⟨hiff, hyes, hno, ?_, ?_, ?_, loadTemplates_lastLoad r w, ?_⟩
  · intro e _ he hw
    have h := hno (by rw [hw]; linarith)
    exact ⟨h, by rw [h]⟩
  · intro e he hw
    exact hyes (by rw [hw]; linarith)
  · intro templatesDir appsDir hnow
    apply Reload_of_expired
    apply (needsReload_iff _ w (by exact hlo) (by exact hhi)).mpr
    show w.now - zeroTime > r.cacheTTL
    unfold zeroTime
    linarith
  · intro id q toLower
    refine ⟨?_, rfl, rfl, rfl, ?_, rfl, rfl, rfl⟩
    · unfold GetTemplate
      dsimp only
      split <;> rfl
    · unfold GetApp
      dsimp only
      split <;> rfl

/-- Counterexample to C6 as stated: a new registry whose TTL is the largest
`Duration`, queried at a present-day clock reading. The elapsed time exceeds the
TTL, but `time.Since` saturates at the TTL, so `Reload` does not rescan and every
query answers from the empty registry. -/
theorem reload_saturated_counterexample :
    sampleWorld.now - (NewRegistry "./templates" "./apps" maxDuration).lastLoad >
        (NewRegistry "./templates" "./apps" maxDuration).cacheTTL ∧
      needsReload (NewRegistry "./templates" "./apps" maxDuration) sampleWorld = false ∧
      Reload (NewRegistry "./templates" "./apps" maxDuration) sampleWorld =
        (NewRegistry "./templates" "./apps" maxDuration, none) ∧
      Reload (NewRegistry "./templates" "./apps" maxDuration) sampleWorld ≠
        Initialize (NewRegistry "./templates" "./apps" maxDuration) sampleWorld ∧
      (ListTemplates (NewRegistry "./templates" "./apps" maxDuration) sampleWorld).2 =
        ([], none) :=
  ⟨by decide, by decide, rfl,
    fun h => absurd (congrArg (fun p => p.1.lastLoad) h) (by decide), by decide⟩

/-- Witness of C6 on the sample registry (TTL one hour, loaded at `T0`): a query
one second later does not rescan, a query one hour and one nanosecond later does. -/
theorem reload_iff_elapsed_exceeds_ttl_witness :
    (minDuration ≤ sampleRegistry.cacheTTL ∧ sampleRegistry.cacheTTL < maxDuration) ∧
      Reload sampleRegistry { sampleWorld with now := 70000000000000000000 + 1000000000 } =
        (sampleRegistry, none) ∧
      Reload sampleRegistry
          { sampleWorld with now := 70000000000000000000 + 3600000000000 + 1 } =
        Initialize sampleRegistry
          { sampleWorld with now := 70000000000000000000 + 3600000000000 + 1 } :=
  ⟨⟨by decide, by decide⟩,
    ((reload_iff_elapsed_exceeds_ttl sampleRegistry
      { sampleWorld with now := 70000000000000000000 + 1000000000 } (by decide)
      (by decide)).2.2.2.1 1000000000 (by decide) (by decide) (by decide)).1,
    (reload_iff_elapsed_exceeds_ttl sampleRegistry
      { sampleWorld with now := 70000000000000000000 + 3600000000000 + 1 } (by decide)
      (by decide)).2.2.2.2.1 1 (by decide) (by decide)⟩

/-! ## C7: listing -/

/-- C7: `ListTemplates` and `ListApps` return a nil error and, in snapshot order,
one metadata entry for each record of the snapshot's record map: the lengths
agree, the entry at each position carries the eight fields of the record at that
position, and every entry is the projection of a stored record. -/
theorem list_projects_every_record (r : Registry) (w : World) :
    ((ListTemplates r w).1 = (Reload r w).1 ∧
      (ListTemplates r w).2.2 = none ∧
      (ListTemplates r w).2.1.length = (Reload r w).1.templates.entries.length ∧
      (Reload r w).1.templates.keys.Nodup ∧
      List.Forall₂ (fun m e => m.ID = e.2.ID ∧ m.Name = e.2.Name ∧
          m.Description = e.2.Description ∧ m.Icon = e.2.Icon ∧ m.Category = e.2.Category ∧
          m.Author = e.2.Author ∧ m.Version = e.2.Version ∧ m.UpdatedAt = e.2.UpdatedAt)
        (ListTemplates r w).2.1 (Reload r w).1.templates.entries ∧
      (∀ m ∈ (ListTemplates r w).2.1, ∃ e ∈ (Reload r w).1.templates.entries,
        m = templateMetadata e.2)) ∧
    ((ListApps r w).1 = (Reload r w).1 ∧
      (ListApps r w).2.2 = none ∧
      (ListApps r w).2.1.length = (Reload r w).1.apps.entries.length ∧
      (Reload r w).1.apps.keys.Nodup ∧
      List.Forall₂ (fun m e => m.ID = e.2.ID ∧ m.Name = e.2.Name ∧
          m.Description = e.2.Description ∧ m.Icon = e.2.Icon ∧ m.Category = e.2.Category ∧
          m.Author = e.2.Author ∧ m.Version = e.2.Version ∧ m.UpdatedAt = e.2.UpdatedAt)
        (ListApps r w).2.1 (Reload r w).1.apps.entries ∧
      (∀ m ∈ (ListApps r w).2.1, ∃ e ∈ (Reload r w).1.apps.entries,
        m = appMetadata e.2)) := by
  constructor
  · refine ⟨rfl, rfl, ?_, AList.keys_nodup _, ?_, ?_⟩
    · unfold ListTemplates; simp
    · unfold ListTemplates
      dsimp only
      rw [List.forall₂_map_left_iff]
      exact List.forall₂_same.mpr (fun e _ => ⟨rfl, rfl, rfl, rfl, rfl, rfl, rfl, rfl⟩)
    · intro m hm
      unfold ListTemplates at hm
      obtain ⟨e, he, rfl⟩ := List.mem_map.mp hm
      exact ⟨e, he, rfl⟩
  · refine ⟨rfl, rfl, ?_, AList.keys_nodup _, ?_, ?_⟩
    · unfold ListApps; simp
    · unfold ListApps
      dsimp only
      rw [List.forall₂_map_left_iff]
      exact List.forall₂_same.mpr (fun e _ => ⟨rfl, rfl, rfl, rfl, rfl, rfl, rfl, rfl⟩)
    · intro m hm
      unfold ListApps at hm
      obtain ⟨e, he, rfl⟩ := List.mem_map.mp hm
      exact ⟨e, he, rfl⟩

/-- Witness of C7 on the sample registry: three records of each kind, three
entries in each listing. -/
theorem list_projects_every_record_witness :
    (ListTemplates sampleRegistry sampleWorld).2.1.length = 3 ∧
      (ListApps sampleRegistry sampleWorld).2.1.length = 3 :=
  ⟨(list_projects_every_record sampleRegistry sampleWorld).1.2.2.1.trans (by decide),
    (list_projects_every_record sampleRegistry sampleWorld).2.2.2.1.trans (by decide)⟩

/-! ## C8: missing apps root -/

theorem Initialize_of_missing (r : Registry) (w : World) (h : w.appsDirMissing = true) :
    (Initialize r w).1.apps = r.apps ∧ (Initialize r w).1.appCategories = r.appCategories := by
  have ha := loadTemplates_apps r w
  unfold Initialize
  split
  · next r1 err heq => rw [heq] at ha; exact ⟨ha.1, ha.2.1⟩
  · next r1 heq =>
    rw [heq] at ha
    dsimp only
    rw [loadApps_missing r1 w h]
    exact ⟨ha.1, ha.2.1⟩

theorem Reload_of_missing (r : Registry) (w : World) (h : w.appsDirMissing = true) :
    (Reload r w).1.apps = r.apps ∧ (Reload r w).1.appCategories = r.appCategories := by
  unfold Reload
  split
  · exact Initialize_of_missing r w h
  · exact ⟨rfl, rfl⟩

/-- C8, as amended: when the apps root does not exist, `loadApps` returns no error
and leaves the registry as it was, so the app record map and the app category list
keep their contents through `Initialize` and `Reload`. On a registry without app
records `ListApps` then returns the empty sequence and no error; in particular on
a new registry after `Initialize`, where the app category list is empty too. -/
theorem missing_apps_root_keeps_apps (r : Registry) (w : World)
    (h : w.appsDirMissing = true) :
    loadApps r w = (r, none) ∧
    ((Initialize r w).1.apps = r.apps ∧ (Initialize r w).1.appCategories = r.appCategories) ∧
    ((Reload r w).1.apps = r.apps ∧ (Reload r w).1.appCategories = r.appCategories) ∧
    (r.apps.entries = [] → (ListApps r w).2 = ([], none)) ∧
    (∀ (templatesDir appsDir : String) (cacheTTL : Duration) (w0 : World),
      w0.appsDirMissing = true →
      (Initialize (NewRegistry templatesDir appsDir cacheTTL) w0).1.apps.entries = [] ∧
        (Initialize (NewRegistry templatesDir appsDir cacheTTL) w0).1.appCategories = [] ∧
        (ListApps (Initialize (NewRegistry templatesDir appsDir cacheTTL) w0).1 w).2 =
          ([], none) ∧
        (GetAppCategories (Initialize (NewRegistry templatesDir appsDir cacheTTL) w0).1 w).2 =
          []) := by
  have hlist : ∀ r' : Registry, r'.apps.entries = [] → (ListApps r' w).2 = ([], none) := by
    intro r' hr'
    unfold ListApps
    dsimp only
    rw [(Reload_of_missing r' w h).1, hr']
    rfl
  refine ⟨loadApps_missing r w h, Initialize_of_missing r w h, Reload_of_missing r w h,
    hlist r, ?_⟩
  intro templatesDir appsDir cacheTTL w0 h0
  obtain ⟨h1, h2⟩ := Initialize_of_missing (NewRegistry templatesDir appsDir cacheTTL) w0 h0
  have h1' : (Initialize (NewRegistry templatesDir appsDir cacheTTL) w0).1.apps.entries = [] := by
    rw [h1]; rfl
  have h2' : (Initialize (NewRegistry templatesDir appsDir cacheTTL) w0).1.appCategories = [] := by
    rw [h2]; rfl
  refine ⟨h1', h2', hlist _ h1', ?_⟩
  unfold GetAppCategories
  dsimp only
  rw [(Reload_of_missing _ w h).2, h2']

/-- Counterexample to C8 as stated: the sample registry holds three apps from an
earlier scan; with the apps root gone, `loadApps` succeeds and the apps, their
categories and the listing are still there. -/
theorem missing_apps_root_counterexample :
    (loadApps sampleRegistry missingAppsWorld).2 = none ∧
      (loadApps sampleRegistry missingAppsWorld).1.apps.lookup "plex" = some appMedia ∧
      (loadApps sampleRegistry missingAppsWorld).1.apps.entries ≠ [] ∧
      (loadApps sampleRegistry missingAppsWorld).1.appCategories ≠ [] ∧
      (ListApps (loadApps sampleRegistry missingAppsWorld).1 missingAppsWorld).2.1 ≠ [] := by
  decide

/-- Witness of C8: a new registry initialised and queried without an apps root
lists no apps, and reports no error. -/
theorem missing_apps_root_keeps_apps_witness :
    missingAppsWorld.appsDirMissing = true ∧
      (ListApps (Initialize (NewRegistry "./templates" "./apps" 3600000000000)
        missingAppsWorld).1 missingAppsWorld).2 = ([], none) :=
  ⟨rfl, ((missing_apps_root_keeps_apps sampleRegistry missingAppsWorld rfl).2.2.2.2
    "./templates" "./apps" 3600000000000 missingAppsWorld rfl).2.2.1⟩

/-! ## C9: when Initialize fails -/

/-- The error a walk returns is the first one carried by a callback invocation. -/
theorem Walk_visitWith_findSome {α : Type} (ID Name Category : α → String)
    (st : AList (fun _ : String => α) × CategoryMap) (es : List (WalkEntry α)) :
    (Walk (visitWith ID Name Category) st es).2 = es.findSome? (fun e => e.err) := by
  induction es generalizing st with
  | nil => rfl
  | cons e es ih =>
    rw [Walk, List.findSome?_cons]
    cases he : e.err with
    | some err => rw [visitWith_err ID Name Category st e err he]
    | none =>
      cases hv : validRecord ID Name e with
      | none => rw [visitWith_skip ID Name Category st e he hv]; exact ih st
      | some v => rw [visitWith_store ID Name Category st e v hv]; exact ih _

/-- C9: `Initialize` returns an error exactly when `loadTemplates` does, which is
exactly when the walk of the templates root reports an error on some entry; the
error is the first such one, wrapped. Nothing else enters: not the result of
`loadApps`, and not files that cannot be read or decoded or fail validation. -/
theorem initialize_fails_iff_templates_walk_fails (r : Registry) (w : World) :
    ((Initialize r w).2 ≠ none ↔ (loadTemplates r w).2 ≠ none) ∧
    ((loadTemplates r w).2 ≠ none ↔ ∃ e ∈ w.templatesWalk, e.err ≠ none) ∧
    (loadTemplates r w).2 = w.templatesWalk.findSome? (fun e => e.err) ∧
    (Initialize r w).2 = (w.templatesWalk.findSome? (fun e => e.err)).map
      (fun err => "failed to load templates: " ++ err) ∧
    ((∀ e ∈ w.templatesWalk, e.err = none) → (Initialize r w).2 = none) := by
  have hfind : (loadTemplates r w).2 = w.templatesWalk.findSome? (fun e => e.err) := by
    rw [loadTemplates_err, templateVisit_eq]
    exact Walk_visitWith_findSome _ _ _ _ _
  have hiff : (loadTemplates r w).2 = none ↔ ∀ e ∈ w.templatesWalk, e.err = none := by
    rw [loadTemplates_err, templateVisit_eq]
    exact Walk_visitWith_err _ _ _ _ _
  have hinit : (Initialize r w).2 = (loadTemplates r w).2.map
      (fun err => "failed to load templates: " ++ err) := by
    unfold Initialize
    split
    · next r1 err heq => rw [heq]; rfl
    · next r1 heq => rw [heq]; rfl
  refine ⟨not_congr (Initialize_err r w), ?_, hfind, ?_, ?_⟩
  · rw [Ne, hiff]
    push_neg
    rfl
  · rw [hinit, hfind]
  · intro h
    exact (Initialize_err r w).mpr (hiff.mpr h)

/-- Witness of C9: on `appsErrWorld` the app scan fails and one template file has
no name, and `Initialize` succeeds; on `errWorld` the templates walk reports an
error, and `Initialize` returns it wrapped. -/
theorem initialize_fails_iff_templates_walk_fails_witness :
    ((loadApps sampleRegistry appsErrWorld).2 = some "open apps: permission denied" ∧
      (Initialize sampleRegistry appsErrWorld).2 = none) ∧
    (Initialize sampleRegistry errWorld).2 =
      some "failed to load templates: open templates/private: permission denied" :=
  ⟨⟨by decide,
      (initialize_fails_iff_templates_walk_fails sampleRegistry appsErrWorld).2.2.2.2
        (by decide)⟩,
    (initialize_fails_iff_templates_walk_fails sampleRegistry errWorld).2.2.2.1⟩

/-! ## C10: a scan that fails -/

/-- C10 (the code at the failing input): the sample registry holds three templates
and three apps. A template scan that meets a walk error after one valid file
returns the error and leaves the category list and `lastLoad` as they were, but the
record map now holds that one file only, so `backup` is no longer found; an app
scan whose root cannot be opened returns the error and leaves the app record map
empty beside the three old categories. -/
theorem failed_scan_replaces_record_map :
    ((loadTemplates sampleRegistry errWorld).2 =
        some "open templates/private: permission denied" ∧
      sampleRegistry.templates.lookup "backup" = some tplBackup ∧
      (loadTemplates sampleRegistry errWorld).1.templates.lookup "backup" = none ∧
      (loadTemplates sampleRegistry errWorld).1.templates.keys = ["plex"] ∧
      (loadTemplates sampleRegistry errWorld).1.categories = sampleRegistry.categories ∧
      (loadTemplates sampleRegistry errWorld).1.lastLoad = sampleRegistry.lastLoad ∧
      (GetTemplate (loadTemplates sampleRegistry errWorld).1 sampleWorld "backup").2 =
        (none, some "template not found: backup")) ∧
    ((loadApps sampleRegistry errWorld).2 = some "open apps: permission denied" ∧
      sampleRegistry.apps.lookup "backup" = some appBackup ∧
      (loadApps sampleRegistry errWorld).1.apps.entries = [] ∧
      (loadApps sampleRegistry errWorld).1.appCategories = sampleRegistry.appCategories ∧
      (loadApps sampleRegistry errWorld).1.appCategories.length = 3) := by
  decide

/-! ## C11: scanning twice -/

/-- The categories marked after storing the records of `l` one after the other. -/
theorem keys_foldl_storeRecord {α : Type} (ID Category : α → String) (c : String) (l : List α)
    (st : AList (fun _ : String => α) × CategoryMap) :
    c ∈ (l.foldl (storeRecord ID Category) st).2.keys ↔
      c ∈ st.2.keys ∨ ∃ v ∈ l, Category v = c := by
  induction l generalizing st with
  | nil => simp
  | cons x xs ih =>
    rw [List.foldl_cons, ih]
    unfold storeRecord
    dsimp only
    rw [← AList.mem_keys, AList.mem_insert, AList.mem_keys]
    constructor
    · rintro ((h | h) | ⟨v, hv, h⟩)
      · exact Or.inr ⟨x, List.mem_cons_self _ _, h.symm⟩
      · exact Or.inl h
      · exact Or.inr ⟨v, List.mem_cons_of_mem _ hv, h⟩
    · rintro (h | ⟨v, hv, h⟩)
      · exact Or.inl (Or.inr h)
      · rcases List.mem_cons.mp hv with rfl | hv
        · exact Or.inl (Or.inl h.symm)
        · exact Or.inr ⟨v, hv, h⟩

theorem loadTemplates_categories (r : Registry) (w : World) :
    (loadTemplates r w).1.categories =
      if (Walk templateVisit (∅, ∅) w.templatesWalk).2 = none then
        (Walk templateVisit (∅, ∅) w.templatesWalk).1.2.keys
      else r.categories := by
  unfold loadTemplates
  dsimp only
  split
  · next err h => rw [h]; simp
  · next h => rw [h]; simp

theorem loadApps_appCategories (r : Registry) (w : World) (hm : w.appsDirMissing = false) :
    (loadApps r w).1.appCategories =
      if (Walk appVisit (∅, ∅) w.appsWalk).2 = none then
        (Walk appVisit (∅, ∅) w.appsWalk).1.2.keys
      else r.appCategories := by
  unfold loadApps
  rw [if_neg (by simp [hm])]
  dsimp only
  split
  · next err h => rw [h]; simp
  · next h => rw [h]; simp

/-- One template scan after another over the same walk and clock changes nothing. -/
theorem loadTemplates_idem (r : Registry) (w : World) :
    loadTemplates (loadTemplates r w).1 w = loadTemplates r w := by
  unfold loadTemplates
  dsimp only
  split <;> rfl

/-- One app scan after another over the same root changes nothing. -/
theorem loadApps_idem (r : Registry) (w : World) :
    loadApps (loadApps r w).1 w = loadApps r w := by
  unfold loadApps
  split
  · rfl
  · dsimp only
    split <;> rfl

/-- The categories a successful walk marks are those of its valid files. -/
theorem Walk_templateVisit_categories (es : List (WalkEntry Template)) (c : String)
    (h : (Walk templateVisit (∅, ∅) es).2 = none) :
    c ∈ (Walk templateVisit (∅, ∅) es).1.2.keys ↔
      ∃ v ∈ validRecords Template.ID Template.Name es, v.Category = c := by
  rw [templateVisit_eq] at h ⊢
  have hok := (Walk_visitWith_err _ _ _ _ es).mp h
  rw [Walk_visitWith_ok _ _ _ _ es hok, keys_foldl_storeRecord]
  simp

theorem Walk_appVisit_categories (es : List (WalkEntry App)) (c : String)
    (h : (Walk appVisit (∅, ∅) es).2 = none) :
    c ∈ (Walk appVisit (∅, ∅) es).1.2.keys ↔
      ∃ v ∈ validRecords App.ID App.Name es, v.Category = c := by
  rw [appVisit_eq] at h ⊢
  have hok := (Walk_visitWith_err _ _ _ _ es).mp h
  rw [Walk_visitWith_ok _ _ _ _ es hok, keys_foldl_storeRecord]
  simp

/-- C11, as amended: scanning twice in a row is scanning once. For either kind, a
second scan over the same walk, whatever the clock reads, returns the same error
result and leaves the same record map and the same category list as the first;
with the same clock the whole registry is the same, also when the apps root is
missing. The record map built by a scan that walks its root (every template scan,
an app scan whose root exists) is a function of the walk alone, and after such a
scan that succeeds so is the category list, which holds the categories of the
valid files: neither depends on what the registry held before. An app scan whose
root is missing succeeds and leaves the registry as it was. -/
theorem scan_twice_is_scan_once (r r' : Registry) (w w' : World) :
    (w'.templatesWalk = w.templatesWalk →
      ((loadTemplates (loadTemplates r w).1 w').2 = (loadTemplates r w).2 ∧
        (loadTemplates (loadTemplates r w).1 w').1.templates = (loadTemplates r w).1.templates ∧
        (loadTemplates (loadTemplates r w).1 w').1.categories =
          (loadTemplates r w).1.categories) ∧
      (loadTemplates r' w').1.templates = (loadTemplates r w).1.templates ∧
      ((loadTemplates r w).2 = none →
        (loadTemplates r' w').2 = none ∧
          (loadTemplates r' w').1.categories = (loadTemplates r w).1.categories ∧
          ∀ c, c ∈ (loadTemplates r w).1.categories ↔
            ∃ v ∈ validRecords Template.ID Template.Name w.templatesWalk, v.Category = c)) ∧
    loadTemplates (loadTemplates r w).1 w = loadTemplates r w ∧
    (w'.appsDirMissing = w.appsDirMissing → w'.appsWalk = w.appsWalk →
      (loadApps (loadApps r w).1 w').2 = (loadApps r w).2 ∧
        (loadApps (loadApps r w).1 w').1.apps = (loadApps r w).1.apps ∧
        (loadApps (loadApps r w).1 w').1.appCategories = (loadApps r w).1.appCategories) ∧
    (w'.appsDirMissing = false → w.appsDirMissing = false → w'.appsWalk = w.appsWalk →
      (loadApps r' w').1.apps = (loadApps r w).1.apps ∧
      ((loadApps r w).2 = none →
        (loadApps r' w').2 = none ∧
          (loadApps r' w').1.appCategories = (loadApps r w).1.appCategories ∧
          ∀ c, c ∈ (loadApps r w).1.appCategories ↔
            ∃ v ∈ validRecords App.ID App.Name w.appsWalk, v.Category = c)) ∧
    loadApps (loadApps r w).1 w = loadApps r w ∧
    (w.appsDirMissing = true → loadApps r w = (r, none)) := by
  refine ⟨?_, loadTemplates_idem r w, ?_, ?_, loadApps_idem r w, loadApps_missing r w⟩
  · intro hw
    have hmap : ∀ s : Registry, (loadTemplates s w').1.templates =
        (loadTemplates r w).1.templates := by
      intro s
      rw [loadTemplates_templates, loadTemplates_templates, hw]
    have herr : ∀ s : Registry, (loadTemplates s w').2 = (loadTemplates r w).2 := by
      intro s
      rw [loadTemplates_err, loadTemplates_err, hw]
    refine ⟨⟨herr _, hmap _, ?_⟩, hmap r', ?_⟩
    · rw [loadTemplates_categories (loadTemplates r w).1 w', loadTemplates_categories r w, hw]
      split_ifs <;> rfl
    · intro hok
      have hok' := hok
      rw [loadTemplates_err] at hok'
      refine ⟨(herr r').trans hok, ?_, ?_⟩
      · rw [loadTemplates_categories r' w', loadTemplates_categories r w, hw, if_pos hok',
          if_pos hok']
      · intro c
        rw [loadTemplates_categories r w, if_pos hok']
        exact Walk_templateVisit_categories _ c hok'
  · intro hmw hw
    cases hm : w.appsDirMissing with
    | true =>
      rw [loadApps_missing r w hm, loadApps_missing r w' (hmw.trans hm)]
      exact ⟨rfl, rfl, rfl⟩
    | false =>
      have hm' : w'.appsDirMissing = false := hmw.trans hm
      refine ⟨?_, ?_, ?_⟩
      · rw [loadApps_err _ w' hm', loadApps_err r w hm, hw]
      · rw [loadApps_apps _ w' hm', loadApps_apps r w hm, hw]
      · rw [loadApps_appCategories (loadApps r w).1 w' hm', loadApps_appCategories r w hm, hw]
        split_ifs <;> rfl
  · intro hm' hm hw
    have hmap : ∀ s : Registry, (loadApps s w').1.apps = (loadApps r w).1.apps := by
      intro s
      rw [loadApps_apps s w' hm', loadApps_apps r w hm, hw]
    have herr : ∀ s : Registry, (loadApps s w').2 = (loadApps r w).2 := by
      intro s
      rw [loadApps_err s w' hm', loadApps_err r w hm, hw]
    refine ⟨hmap r', ?_⟩
    · intro hok
      have hok' := hok
      rw [loadApps_err r w hm] at hok'
      refine ⟨(herr r').trans hok, ?_, ?_⟩
      · rw [loadApps_appCategories r' w' hm', loadApps_appCategories r w hm, hw, if_pos hok',
          if_pos hok']
      · intro c
        rw [loadApps_appCategories r w hm, if_pos hok']
        exact Walk_appVisit_categories _ c hok'

/-- Witness of C11 on `dupWorld`: scanned once more at a later clock reading, or
scanned from a new registry instead of the sample one, both kinds give the same
record map and the same categories. -/
theorem scan_twice_is_scan_once_witness :
    ((loadTemplates (loadTemplates sampleRegistry dupWorld).1
          { dupWorld with now := 80000000000000000000, loadTime := 80000000000000000000 }
        ).1.templates = (loadTemplates sampleRegistry dupWorld).1.templates ∧
      (loadTemplates (NewRegistry "./templates" "./apps" 3600000000000)
          dupWorld).1.categories = (loadTemplates sampleRegistry dupWorld).1.categories) ∧
    ((loadApps (loadApps sampleRegistry dupWorld).1
          { dupWorld with now := 80000000000000000000, loadTime := 80000000000000000000 }
        ).1.apps = (loadApps sampleRegistry dupWorld).1.apps ∧
      (loadApps (NewRegistry "./templates" "./apps" 3600000000000)
          dupWorld).1.appCategories = (loadApps sampleRegistry dupWorld).1.appCategories) :=
  ⟨⟨((scan_twice_is_scan_once sampleRegistry sampleRegistry dupWorld
        { dupWorld with now := 80000000000000000000, loadTime := 80000000000000000000 }).1
        rfl).1.2.1,
      (((scan_twice_is_scan_once sampleRegistry
        (NewRegistry "./templates" "./apps" 3600000000000) dupWorld dupWorld).1 rfl).2.2
        (by decide)).2.1⟩,
    ⟨((scan_twice_is_scan_once sampleRegistry sampleRegistry dupWorld
        { dupWorld with now := 80000000000000000000, loadTime := 80000000000000000000 }).2.2.1
        rfl rfl).2.1,
      (((scan_twice_is_scan_once sampleRegistry
        (NewRegistry "./templates" "./apps" 3600000000000) dupWorld dupWorld).2.2.2.1
        rfl rfl rfl).2 (by decide)).2.1⟩⟩

/-- Counterexample to C11 as stated: with the apps root missing, the app scan
succeeds from the sample registry and from a new one, over the same (absent)
files, and leaves the three sample apps and their categories in the first and
nothing in the second: what a successful scan leaves does depend on what the
registry held before. -/
theorem scan_missing_root_counterexample :
    (loadApps sampleRegistry missingAppsWorld).2 = none ∧
      (loadApps (NewRegistry "./templates" "./apps" 3600000000000) missingAppsWorld).2 = none ∧
      (loadApps sampleRegistry missingAppsWorld).1.apps.lookup "plex" = some appMedia ∧
      (loadApps (NewRegistry "./templates" "./apps" 3600000000000)
        missingAppsWorld).1.apps.lookup "plex" = none ∧
      (loadApps sampleRegistry missingAppsWorld).1.apps ≠
        (loadApps (NewRegistry "./templates" "./apps" 3600000000000) missingAppsWorld).1.apps ∧
      (loadApps sampleRegistry missingAppsWorld).1.appCategories ≠
        (loadApps (NewRegistry "./templates" "./apps" 3600000000000)
          missingAppsWorld).1.appCategories :=
  ⟨by decide, by decide, by decide, by decide,
    fun h => absurd (congrArg (fun m => AList.lookup "plex" m) h) (by decide), by decide⟩

end Hub
